import Mathlib

/-!
Shallow embedding of the ArcaneQuest language front end
(src/scanner.py and src/parser.py) and proofs about it.

Conventions of the embedding:
* Python values that can be a string, an int or None (token values,
  node values) are modelled by the sum type `PyVal`.
* Python dictionaries keyed by strings are modelled by association lists.
* Python `while` loops whose termination is by token/character
  consumption are modelled by fueled recursion; the fuel supplied by the
  wrappers is derived from the input size and is large enough that it is
  never exhausted on the evaluated inputs (exhaustion is observable: the
  fueled parser records a "FUEL" diagnostic, the fueled scanner would
  truncate the token list, which the proved equations show does not
  happen).
* `str.splitlines`, `str.isspace` and `str.strip` are modelled on the
  common ASCII line-break/whitespace characters (plus a few Latin-1
  ones); the claims proved below do not depend on the exotic Unicode
  boundary characters.
-/

/-- Python value that is a `str`, an `int` or `None`. -/
inductive PyVal where
  | vstr (s : String)
  | vint (n : Nat)
  | vnone
deriving DecidableEq, Repr

/-- Python truthiness for `PyVal` (empty string, 0 and None are falsy). -/
def pyTruthy : PyVal → Bool
  | .vstr s => s ≠ ""
  | .vint n => n ≠ 0
  | .vnone => false

/-- Python `str()` rendering of a `PyVal`, as used by f-strings. -/
def pyStr : PyVal → String
  | .vstr s => s
  | .vint n => toString n
  | .vnone => "None"

/-- Token dictionary produced by `make_token` in src/scanner.py. -/
structure Token where
  ttype : String
  value : PyVal
  lineno : Int
  col : Int
deriving DecidableEq, Repr

/-- Factory function `make_token` (src/scanner.py). -/
def make_token (token_type : String) (value : PyVal) (line_number : Int) (column : Int) : Token :=
  ⟨token_type, value, line_number, column⟩

/-! Token type constants (src/scanner.py). -/

def TOKEN_EOF : String := "EOF"
def TOKEN_NEWLINE : String := "NEWLINE"
def TOKEN_INDENT : String := "INDENT"
def TOKEN_DEDENT : String := "DEDENT"
def TOKEN_COMMENT : String := "COMMENT"
def TOKEN_KEYWORD : String := "KEYWORD"
def TOKEN_DATATYPE : String := "DATATYPE"
def TOKEN_LITERAL : String := "LITERAL"
def TOKEN_IDENTIFIER : String := "IDENTIFIER"
def TOKEN_NUMBER : String := "NUMBER"
def TOKEN_STRING : String := "STRING"
def TOKEN_OPERATOR : String := "OPERATOR"
def TOKEN_PUNCT : String := "PUNCT"
def TOKEN_UNKNOWN : String := "UNKNOWN"

/-! Word tables (src/scanner.py). -/

def KEYWORDS : List String :=
  ["summon", "quest", "reward", "attack", "scout", "spot", "dodge", "counter",
   "replay", "farm", "guild", "embark", "gameOver", "savePoint",
   "skipEncounter", "escapeDungeon"]

def DATATYPES : List String := ["potion", "elixir", "fate", "scroll"]

def BUILTIN_LITERALS : List String := ["true", "false"]

def OPERATORS : List String := ["and", "or", "not"]

def MULTI_CHAR_OPS : List String :=
  ["**", "<=", ">=", "==", "!=", "+=", "-=", "*=", "/=", "%=", "//"]

def SINGLE_CHAR_PUNCT : List Char :=
  ['(', ')', '{', '}', '[', ']', ':', ',', '.',
   '+', '-', '*', '/', '%', '<', '>', '=', '!', '~']

/-! String helpers used to model the Python string/regex operations. -/

/-- Whitespace characters of Python `str.isspace` / `str.strip`
(the common ones; see the header note). -/
def pySpace (c : Char) : Bool :=
  c = ' ' || c = '\t' || c = '\n' || c = '\r' || c = '\x0b' || c = '\x0c' ||
  c = '\x85' || c = '\xa0'

/-- Line-break characters of Python `str.splitlines`
(besides the two-character "\r\n"). -/
def pyLineBreak (c : Char) : Bool :=
  c = '\n' || c = '\r' || c = '\x0b' || c = '\x0c' ||
  c = '\x1c' || c = '\x1d' || c = '\x1e' || c = '\x85' ||
  c = '\u2028' || c = '\u2029'

/-- Python `str.splitlines` (keepends=False), on character lists. -/
def splitlinesAux : List Char → List Char → List (List Char)
  | [], cur => if cur = [] then [] else [cur]
  | '\r' :: '\n' :: rest, cur => cur :: splitlinesAux rest []
  | c :: rest, cur =>
    if pyLineBreak c then cur :: splitlinesAux rest []
    else splitlinesAux rest (cur ++ [c])

def splitlines (s : List Char) : List (List Char) := splitlinesAux s []

/-- Strip trailing "\n" and "\r" characters (`line.rstrip("\n\r")`). -/
def rstripNlCr (l : List Char) : List Char :=
  (l.reverse.dropWhile (fun c => c = '\n' || c = '\r')).reverse

/-- Python `str.strip()` on character lists. -/
def stripPy (l : List Char) : List Char :=
  ((l.dropWhile pySpace).reverse.dropWhile pySpace).reverse

/-- Python `str.find(sub)`: index of the first occurrence, or none. -/
def findSub (needle : List Char) : List Char → Option Nat
  | [] => if needle.isPrefixOf ([] : List Char) then some 0 else none
  | c :: rest =>
    if needle.isPrefixOf (c :: rest) then some 0
    else (findSub needle rest).map (· + 1)

/-- Match of the regex `^q(?:[^q\\]|\\.)*q` after the opening quote:
returns the total length of the literal (quotes included). -/
def scanQuotedAux (q : Char) : List Char → Nat → Option Nat
  | [], _ => none
  | '\\' :: _ :: rest, acc => scanQuotedAux q rest (acc + 2)
  | c :: rest, acc =>
    if c = q then some (acc + 1) else scanQuotedAux q rest (acc + 1)

/-- Match of `_RE_STRING` / `_RE_STRING_SINGLE`: a quoted literal with
backslash escapes at the start of `s`; returns its length. -/
def scanQuoted (q : Char) (s : List Char) : Option Nat :=
  match s with
  | c :: rest => if c = q then scanQuotedAux q rest 1 else none
  | [] => none

/-! First pass of `scan_source`: merging of multi-line triple-quoted
strings (src/scanner.py lines 121-175). -/

/-- Python `" ".join(...)` on character-list lines. -/
def joinSpace : List (List Char) → List Char
  | [] => []
  | [l] => l
  | l :: rest => l ++ ' ' :: joinSpace rest

/-- Determine which triple quote appears first on a line, if any
(src/scanner.py lines 127-144). -/
def pickTriple (line : List Char) : Option (List Char × Nat) :=
  let td := findSub ['"', '"', '"'] line
  let ts := findSub ['\'', '\'', '\''] line
  match td, ts with
  | some d, some s => if d < s then some (['"', '"', '"'], d) else some (['\'', '\'', '\''], s)
  | some d, none => some (['"', '"', '"'], d)
  | none, some s => some (['\'', '\'', '\''], s)
  | none, none => none

/-- Collect lines until one contains the closing quote
(the inner `while` of the first pass); returns the collected lines and
the remaining lines. -/
def collectMl (q : List Char) : List (List Char) → List (List Char) × List (List Char)
  | [] => ([], [])
  | l :: rest =>
    if (findSub q l).isSome then ([l], rest)
    else
      let (c, r) := collectMl q rest
      (l :: c, r)

/-- Fueled first pass over the lines; the outer `while` consumes at
least one line per iteration, so fuel = number of lines suffices. -/
def preprocessAux : Nat → List (List Char) → List (List Char)
  | 0, ls => ls
  | _ + 1, [] => []
  | fuel + 1, line :: rest =>
    match pickTriple line with
    | none => line :: preprocessAux fuel rest
    | some (q, start) =>
      let remaining := line.drop (start + 3)
      if (findSub q remaining).isSome then line :: preprocessAux fuel rest
      else
        let (content, rest2) := collectMl q rest
        joinSpace (line :: content) :: preprocessAux fuel rest2

def preprocessLines (ls : List (List Char)) : List (List Char) :=
  preprocessAux ls.length ls

/-! Main scanner loop. -/

/-- Mutable state of `scan_source` across lines. -/
structure ScanSt where
  tokens : List Token
  stack : List Nat
  unit : Option Nat
deriving Repr

/-- Character class of the regex `^[A-Za-z_]`. -/
def idStart (c : Char) : Bool :=
  ('a' ≤ c && c ≤ 'z') || ('A' ≤ c && c ≤ 'Z') || c = '_'

/-- Character class of the regex `[A-Za-z0-9_]`. -/
def idCont (c : Char) : Bool := idStart c || c.isDigit

/-- Classification of a word (src/scanner.py lines 338-348). -/
def classifyWord (lit : String) : String :=
  if lit ∈ KEYWORDS then TOKEN_KEYWORD
  else if lit ∈ DATATYPES then TOKEN_DATATYPE
  else if lit ∈ BUILTIN_LITERALS then TOKEN_LITERAL
  else if lit ∈ OPERATORS then TOKEN_OPERATOR
  else TOKEN_IDENTIFIER

/-- Unary-context test for `+ - ! ~` (src/scanner.py lines 306-312):
true when there is no previous token, or the previous token is an
operator / NEWLINE / INDENT, or its value is an opener or separator. -/
def isUnaryCtx (toks : List Token) : Bool :=
  match toks.getLast? with
  | none => true
  | some t =>
    t.ttype = TOKEN_OPERATOR || t.ttype = TOKEN_NEWLINE || t.ttype = TOKEN_INDENT ||
    t.value = .vstr "(" || t.value = .vstr "[" || t.value = .vstr "\x7b" ||
    t.value = .vstr "," || t.value = .vstr ":" || t.value = .vstr "="

/-- Length matched by `_RE_NUMBER` (`^\d+(?:\.\d+)?`), assuming the head
is a digit. -/
def numberLit (s : List Char) : List Char :=
  let ds := s.takeWhile Char.isDigit
  match s.drop ds.length with
  | '.' :: r2 =>
    let fs := r2.takeWhile Char.isDigit
    if fs ≠ [] then ds ++ '.' :: fs else ds
  | _ => ds

/-- The per-line tokenizing loop (src/scanner.py lines 236-358).
Consumes at least one character per iteration; fuel = length of the
content suffices. Returns the extended token list and the final column. -/
def tokenizeContent : Nat → List Char → Nat → Int → List Token → List Token × Nat
  | 0, _, col, _, toks => (toks, col)
  | fuel + 1, s, col, ln, toks =>
    match s with
    | [] => (toks, col)
    | c :: rest =>
      if pySpace c then
        let run := (s.takeWhile (fun c => c = ' ' || c = '\t')).length
        let span := if run = 0 then 1 else run
        tokenizeContent fuel (s.drop span) (col + span) ln toks
      else if ['"', '"', '"'].isPrefixOf s then
        match findSub ['"', '"', '"'] (s.drop 3) with
        | some e =>
          let lit := s.take (e + 6)
          tokenizeContent fuel (s.drop lit.length) (col + lit.length) ln
            (toks ++ [make_token TOKEN_STRING (.vstr (String.mk lit)) ln col])
        | none =>
          tokenizeContent fuel (s.drop 3) (col + 3) ln
            (toks ++ [make_token TOKEN_UNKNOWN (.vstr "\"\"\"") ln col])
      else if ['\'', '\'', '\''].isPrefixOf s then
        match findSub ['\'', '\'', '\''] (s.drop 3) with
        | some e =>
          let lit := s.take (e + 6)
          tokenizeContent fuel (s.drop lit.length) (col + lit.length) ln
            (toks ++ [make_token TOKEN_STRING (.vstr (String.mk lit)) ln col])
        | none =>
          tokenizeContent fuel (s.drop 3) (col + 3) ln
            (toks ++ [make_token TOKEN_UNKNOWN (.vstr "'''") ln col])
      else
        match (scanQuoted '"' s).orElse (fun _ => scanQuoted '\'' s) with
        | some len =>
          tokenizeContent fuel (s.drop len) (col + len) ln
            (toks ++ [make_token TOKEN_STRING (.vstr (String.mk (s.take len))) ln col])
        | none =>
          let two := String.mk (s.take 2)
          if s.length ≥ 2 ∧ two ∈ MULTI_CHAR_OPS then
            tokenizeContent fuel (s.drop 2) (col + 2) ln
              (toks ++ [make_token TOKEN_OPERATOR (.vstr two) ln col])
          else if c ∈ SINGLE_CHAR_PUNCT then
            let tok :=
              if c = '+' || c = '-' || c = '!' || c = '~' then
                if isUnaryCtx toks then
                  make_token TOKEN_OPERATOR (.vstr (String.mk [c])) ln col
                else
                  make_token (if c = '+' || c = '-' then TOKEN_OPERATOR else TOKEN_PUNCT)
                    (.vstr (String.mk [c])) ln col
              else make_token TOKEN_PUNCT (.vstr (String.mk [c])) ln col
            tokenizeContent fuel rest (col + 1) ln (toks ++ [tok])
          else if c.isDigit then
            let lit := numberLit s
            tokenizeContent fuel (s.drop lit.length) (col + lit.length) ln
              (toks ++ [make_token TOKEN_NUMBER (.vstr (String.mk lit)) ln col])
          else if idStart c then
            let lit := String.mk (c :: rest.takeWhile idCont)
            tokenizeContent fuel (s.drop lit.length) (col + lit.length) ln
              (toks ++ [make_token (classifyWord lit) (.vstr lit) ln col])
          else
            tokenizeContent fuel rest (col + 1) ln
              (toks ++ [make_token TOKEN_UNKNOWN (.vstr (String.mk [c])) ln col])

/-- Pop the indent stack while the new indent is smaller than the top
(the DEDENT `while` loop); returns the new stack and the pop count. -/
def popDedents (il : Nat) : List Nat → List Nat × Nat
  | [] => ([], 0)
  | t :: rest =>
    if il < t then
      let (s, k) := popDedents il rest
      (s, k + 1)
    else (t :: rest, 0)

/-- Indentation width with tabs counted as 4 columns
(`len(leading_ws.replace("\t", "    "))`). -/
def countIndent (ws : List Char) : Nat :=
  ws.foldl (fun a c => a + if c = '\t' then 4 else 1) 0

/-- Processing of one (already merged) source line
(src/scanner.py lines 177-365). -/
def scanLine (lineNo : Int) (rawLine : List Char) (st : ScanSt) : ScanSt :=
  let line := rstripNlCr rawLine
  if stripPy line = [] then
    { st with tokens := st.tokens ++ [make_token TOKEN_NEWLINE (.vstr "") lineNo 0] }
  else
    let leadingWs := line.takeWhile (fun c => c = ' ' || c = '\t')
    let indentLen := countIndent leadingWs
    let stripped := line.drop leadingWs.length
    let cur := st.stack.headD 0
    let (toks1, stack1, unit1) :=
      if indentLen > cur then
        let inc := indentLen - cur
        let u := st.unit.getD inc
        let errToks :=
          if inc % u ≠ 0 then
            [make_token TOKEN_UNKNOWN
              (.vstr ("IndentationError: inconsistent indent (expected multiple of "
                ++ toString u ++ " spaces)")) lineNo 0]
          else []
        (errToks ++ [make_token TOKEN_INDENT (.vint indentLen) lineNo 0],
         indentLen :: st.stack, some u)
      else if indentLen < cur then
        let (stack2, k) := popDedents indentLen st.stack
        let ded := List.replicate k (make_token TOKEN_DEDENT (.vstr "") lineNo 0)
        let mism :=
          if indentLen ≠ stack2.headD 0 then
            [make_token TOKEN_UNKNOWN
              (.vstr "IndentationError: unindent does not match any outer indentation level")
              lineNo 0]
          else []
        (ded ++ mism, stack2, st.unit)
      else ([], st.stack, st.unit)
    let col0 := leadingWs.length
    let (content, commentText) :=
      match findSub ['-', '-', '>'] stripped with
      | some idx => (stripped.take idx, some (stripPy (stripped.drop (idx + 3))))
      | none => (stripped, none)
    let (toks2, colEnd) := tokenizeContent content.length content col0 lineNo (st.tokens ++ toks1)
    let toks3 :=
      match commentText with
      | some ct =>
        if ct ≠ [] then
          toks2 ++ [make_token TOKEN_COMMENT (.vstr (String.mk ct)) lineNo colEnd]
        else toks2
      | none => toks2
    { tokens := toks3 ++ [make_token TOKEN_NEWLINE (.vstr "") lineNo rawLine.length],
      stack := stack1, unit := unit1 }

/-- The `for raw_line in lines` loop; returns the state and the final
value of `line_no`. -/
def runLines : Nat → List (List Char) → ScanSt → ScanSt × Nat
  | n, [], st => (st, n)
  | n, l :: rest, st => runLines (n + 1) rest (scanLine (Int.ofNat (n + 1)) l st)

/-- Final unwinding of the indent stack: one DEDENT per entry above the
bottom (src/scanner.py lines 368-370). -/
def unwindDedents : List Nat → Int → List Token
  | _ :: r :: rest, ln =>
    make_token TOKEN_DEDENT (.vstr "") ln 0 :: unwindDedents (r :: rest) ln
  | _, _ => []

/-- Line splitting, multi-line-string merging, and the per-line loop of
`scan_source`. -/
def scanMain (src : String) : ScanSt × Nat :=
  runLines 0 (preprocessLines (splitlines src.data)) ⟨[], [0], none⟩

/-- Main scanner function `scan_source` (src/scanner.py). -/
def scan_source (src : String) : List Token :=
  let (st, ln) := scanMain src
  st.tokens ++ unwindDedents st.stack (Int.ofNat (ln + 1))
    ++ [make_token TOKEN_EOF (.vstr "") (Int.ofNat (ln + 1)) 0]

example : scan_source "2 + 3 * 4" =
    [make_token TOKEN_NUMBER (.vstr "2") 1 0,
     make_token TOKEN_OPERATOR (.vstr "+") 1 2,
     make_token TOKEN_NUMBER (.vstr "3") 1 4,
     make_token TOKEN_PUNCT (.vstr "*") 1 6,
     make_token TOKEN_NUMBER (.vstr "4") 1 8,
     make_token TOKEN_NEWLINE (.vstr "") 1 9,
     make_token TOKEN_EOF (.vstr "") 2 0] := by rfl

example : scan_source "\"text\" - 5" =
    [make_token TOKEN_STRING (.vstr "\"text\"") 1 0,
     make_token TOKEN_OPERATOR (.vstr "-") 1 7,
     make_token TOKEN_NUMBER (.vstr "5") 1 9,
     make_token TOKEN_NEWLINE (.vstr "") 1 10,
     make_token TOKEN_EOF (.vstr "") 2 0] := by rfl

example : scan_source "spot (x):\n    y = 1\n" =
    [make_token TOKEN_KEYWORD (.vstr "spot") 1 0,
     make_token TOKEN_PUNCT (.vstr "(") 1 5,
     make_token TOKEN_IDENTIFIER (.vstr "x") 1 6,
     make_token TOKEN_PUNCT (.vstr ")") 1 7,
     make_token TOKEN_PUNCT (.vstr ":") 1 8,
     make_token TOKEN_NEWLINE (.vstr "") 1 9,
     make_token TOKEN_INDENT (.vint 4) 2 0,
     make_token TOKEN_IDENTIFIER (.vstr "y") 2 4,
     make_token TOKEN_PUNCT (.vstr "=") 2 6,
     make_token TOKEN_NUMBER (.vstr "1") 2 8,
     make_token TOKEN_NEWLINE (.vstr "") 2 9,
     make_token TOKEN_DEDENT (.vstr "") 3 0,
     make_token TOKEN_EOF (.vstr "") 3 0] := by rfl

/-! Syntax-tree nodes and the semantic analyzer (src/parser.py). -/

/-- Data type name constants (src/parser.py lines 3-6). -/
def DATA_TYPE_INT : String := "potion"
def DATA_TYPE_DOUBLE : String := "elixir"
def DATA_TYPE_STRING : String := "scroll"
def DATA_TYPE_BOOL : String := "fate"

/-- Syntax tree node (class `Node` in src/parser.py): node type, optional
value, children, source line, and the `dtype` field filled in by the
semantic pass (`None` when freshly constructed). -/
inductive Node where
  | mk (ntype : String) (value : PyVal) (children : List Node) (lineno : Option Int)
      (dtype : Option String)
deriving Repr

def Node.ntype : Node → String
  | .mk t _ _ _ _ => t

def Node.value : Node → PyVal
  | .mk _ v _ _ _ => v

def Node.children : Node → List Node
  | .mk _ _ cs _ _ => cs

def Node.lineno : Node → Option Int
  | .mk _ _ _ l _ => l

def Node.dtype : Node → Option String
  | .mk _ _ _ _ d => d

/-- Replace the children list of a node (models in-place mutation of the
Python `children` list elements). -/
def Node.withChildren : Node → List Node → Node
  | .mk t v _ l d, cs => .mk t v cs l d

/-- Entry of the symbol table (class `IdentifierInfo`). -/
structure IdentifierInfo where
  name : PyVal
  dtype : String
  line : Option Int
deriving DecidableEq, Repr

/-- One scope: a Python dict name → IdentifierInfo, as an insertion-order
association list. -/
abbrev Scope := List (PyVal × IdentifierInfo)

/-- Python dict assignment `d[k] = v`: replace in place or append. -/
def dictSet (s : Scope) (k : PyVal) (v : IdentifierInfo) : Scope :=
  if s.any (fun p => p.1 == k) then s.map (fun p => if p.1 == k then (k, v) else p)
  else s ++ [(k, v)]

/-- Python dict read `d[k]` / membership, for a scope. -/
def dictGet (s : Scope) (k : PyVal) : Option IdentifierInfo :=
  (s.find? (fun p => p.1 == k)).map (·.2)

/-- Dict assignment for `function_return_types` (name → return type). -/
def dictSetS (s : List (PyVal × String)) (k : PyVal) (v : String) : List (PyVal × String) :=
  if s.any (fun p => p.1 == k) then s.map (fun p => if p.1 == k then (k, v) else p)
  else s ++ [(k, v)]

/-- Dict read for `function_return_types`. -/
def dictGetS (s : List (PyVal × String)) (k : PyVal) : Option String :=
  (s.find? (fun p => p.1 == k)).map (·.2)

namespace SymbolTable

/-- `SymbolTable.push_scope`: enter a block. The innermost scope is the
head of the list. -/
def push_scope (scopes : List Scope) : List Scope := ([] : Scope) :: scopes

/-- `SymbolTable.pop_scope`: exit the current scope, but only when more
than one scope is present. -/
def pop_scope (scopes : List Scope) : List Scope :=
  if scopes.length > 1 then scopes.tail else scopes

/-- `SymbolTable.declare`: write into the innermost scope. -/
def declare (scopes : List Scope) (name : PyVal) (dtype : String) (line : Option Int) :
    List Scope :=
  match scopes with
  | [] => []
  | s :: rest => dictSet s name ⟨name, dtype, line⟩ :: rest

/-- `SymbolTable.lookup`: walk the scopes from innermost to outermost. -/
def lookup (scopes : List Scope) (name : PyVal) : Option IdentifierInfo :=
  match scopes with
  | [] => none
  | s :: rest =>
    match dictGet s name with
    | some i => some i
    | none => lookup rest name

end SymbolTable

/-- Type-compatibility function `datatype_check` (src/parser.py lines
73-125): `none` models the Python return value `None` (incompatible). -/
def datatype_check (t1 t2 operator : String) : Option String :=
  if t1 = "unknown" ∨ t2 = "unknown" then
    if operator ∈ ["+", "-", "*", "/", "//", "%", "**"] then some DATA_TYPE_DOUBLE
    else if operator ∈ ["<", ">", "<=", ">=", "==", "!="] then some DATA_TYPE_BOOL
    else if operator ∈ ["and", "or"] then some DATA_TYPE_BOOL
    else some "unknown"
  else if operator = "+" ∧ t1 = DATA_TYPE_STRING ∧ t2 = DATA_TYPE_STRING then
    some DATA_TYPE_STRING
  else if operator = "*" ∧ ((t1 = DATA_TYPE_STRING ∧ t2 = DATA_TYPE_INT) ∨
      (t1 = DATA_TYPE_INT ∧ t2 = DATA_TYPE_STRING)) then
    some DATA_TYPE_STRING
  else if operator ∈ ["+", "-", "*", "/", "//", "%", "**"] then
    if (t1 = DATA_TYPE_INT ∨ t1 = DATA_TYPE_DOUBLE) ∧ (t2 = DATA_TYPE_INT ∨ t2 = DATA_TYPE_DOUBLE) then
      if t1 = DATA_TYPE_DOUBLE ∨ t2 = DATA_TYPE_DOUBLE then some DATA_TYPE_DOUBLE
      else some DATA_TYPE_INT
    else none
  else if operator ∈ ["<", ">", "<=", ">="] then
    if (t1 = DATA_TYPE_INT ∨ t1 = DATA_TYPE_DOUBLE) ∧ (t2 = DATA_TYPE_INT ∨ t2 = DATA_TYPE_DOUBLE) then
      some DATA_TYPE_BOOL
    else none
  else if operator = "==" ∨ operator = "!=" then
    if t1 = t2 then some DATA_TYPE_BOOL else none
  else if operator = "and" ∨ operator = "or" then
    if t1 = DATA_TYPE_BOOL ∧ t2 = DATA_TYPE_BOOL then some DATA_TYPE_BOOL else none
  else if operator = "=" then some t2
  else none

/-- `datatype_check` as called with the raw node value as operator: for a
non-string operator every membership and equality test in the Python
function is false, except that the unknown-operand branch still returns
`"unknown"`. -/
def datatype_check_py (t1 t2 : String) (operator : PyVal) : Option String :=
  match operator with
  | .vstr op => datatype_check t1 t2 op
  | _ => if t1 = "unknown" ∨ t2 = "unknown" then some "unknown" else none

/-- Diagnostic: source line (possibly `None`) and message. -/
abbrev SemErr := Option Int × String

/-- Mutable state of `semantic_analysis`: the symbol table scopes, the
collected errors, and `function_return_types`. -/
structure SemSt where
  scopes : List Scope
  errors : List SemErr
  fret : List (PyVal × String)
deriving Repr

/-- Python truthiness of an optional string (None and "" are falsy). -/
def truthyOptStr : Option String → Bool
  | some s => s ≠ ""
  | none => false

/-- f-string rendering of an optional string (`None` for none). -/
def strOfOpt : Option String → String
  | some s => s
  | none => "None"

/-- Condition type check shared by If/Elif/While: report an error when
the condition type is truthy and not boolean. -/
def condCheck (st : SemSt) (pl : Option Int) (ct : Option String) (msgPre : String) : SemSt :=
  match ct with
  | some c =>
    if c ≠ "" ∧ c ≠ DATA_TYPE_BOOL then
      { st with errors := st.errors ++ [(pl, msgPre ++ c)] }
    else st
  | none => st

/-- Parameter names collected from the `Params` children of a
`FunctionDef` node (src/parser.py lines 279-283). -/
def collectParams : List Node → List PyVal
  | [] => []
  | child :: rest =>
    (if child.ntype = "Params" then
      (child.children.filter (fun p => p.ntype = "Param")).map Node.value
     else []) ++ collectParams rest

/-- Index of the last child with the given node type (the Python loops
`body_stmts = child.children` keep the last `Body` child). -/
def lastIdxOf (tt : String) : List Node → Option Nat
  | [] => none
  | n :: ns =>
    match lastIdxOf tt ns with
    | some j => some (j + 1)
    | none => if n.ntype = tt then some 0 else none

/-- Placeholder node for out-of-range list reads (never hit: the indices
come from `lastIdxOf`). -/
def dummyNode : Node := .mk "" .vnone [] none none

/-- Declare the imported module names (the `Import` case). -/
def importModules (l : Option Int) (cs : List Node) (scopes : List Scope) : List Scope :=
  cs.foldl (fun sc child =>
    if child.ntype = "Module" then SymbolTable.declare sc child.value "module" l else sc) scopes

mutual

/-- The recursive `analyze_node` of `semantic_analysis` (src/parser.py
lines 133-480). Returns the inferred type (Python return value), the
node with its `dtype` annotations applied (Python mutates in place), and
the updated state. Fuel decreases on every call; the wrapper supplies
enough for the whole traversal. -/
def analyzeNode : Nat → Node → SemSt → Option String × Node × SemSt
  | 0, n, st => (none, n, st)
  | fuel + 1, .mk t v cs l dt, st =>
    if t = "Program" then
      let (cs2, st2) := analyzeSeq fuel cs st
      (none, .mk t v cs2 l dt, st2)
    else if t = "Comment" then (none, .mk t v cs l dt, st)
    else if t = "Import" then
      (none, .mk t v cs l dt, { st with scopes := importModules l cs st.scopes })
    else if t = "Assignment" then
      if ¬ pyTruthy v ∨ cs.isEmpty then (none, .mk t v cs l dt, st)
      else
        match cs with
        | [] => (none, .mk t v cs l dt, st)
        | c0 :: rest =>
          let (rhs, c0', st2) := analyzeNode fuel c0 st
          match rhs with
          | none =>
            (none, .mk t v (c0' :: rest) l dt,
             { st2 with errors := st2.errors ++
                [(l, "Cannot determine type for assignment to '" ++ pyStr v ++ "'")] })
          | some rt =>
            (some rt, .mk t v (c0' :: rest) l (some rt),
             { st2 with scopes := SymbolTable.declare st2.scopes v rt l })
    else if t = "Input" then
      (some DATA_TYPE_STRING, .mk t v cs l (some DATA_TYPE_STRING), st)
    else if t = "Output" then
      let (cs2, st2) := analyzeSeq fuel cs st
      (none, .mk t v cs2 l dt, st2)
    else if t = "If" then
      let (cs2, st2) := ifKids fuel l cs st
      (none, .mk t v cs2 l dt, st2)
    else if t = "While" then
      let (cs2, st2) := whileKids fuel l cs st
      (none, .mk t v cs2 l dt, st2)
    else if t = "For" then
      let (cs2, varName, st2) := forScan fuel cs .vnone st
      let st3 := { st2 with scopes := SymbolTable.push_scope st2.scopes }
      let st4 :=
        if pyTruthy varName then
          { st3 with scopes := SymbolTable.declare st3.scopes varName DATA_TYPE_STRING l }
        else st3
      match lastIdxOf "Body" cs2 with
      | none =>
        (none, .mk t v cs2 l dt, { st4 with scopes := SymbolTable.pop_scope st4.scopes })
      | some j =>
        let bodyNode := cs2.getD j dummyNode
        let (body2, st5) := analyzeSeq fuel bodyNode.children st4
        let st6 := { st5 with scopes := SymbolTable.pop_scope st5.scopes }
        (none, .mk t v (cs2.set j (bodyNode.withChildren body2)) l dt, st6)
    else if t = "FunctionDef" then
      let params := collectParams cs
      let st2 :=
        if pyTruthy v then { st with scopes := SymbolTable.declare st.scopes v "function" l }
        else st
      let st3 := { st2 with scopes := SymbolTable.push_scope st2.scopes }
      let st4 := params.foldl
        (fun s p => { s with scopes := SymbolTable.declare s.scopes p "unknown" l }) st3
      match lastIdxOf "Body" cs with
      | none =>
        (none, .mk t v cs l dt, { st4 with scopes := SymbolTable.pop_scope st4.scopes })
      | some j =>
        let bodyNode := cs.getD j dummyNode
        let (body2, rt, st5) := fnBody fuel bodyNode.children none st4
        let st6 := { st5 with scopes := SymbolTable.pop_scope st5.scopes }
        let st7 :=
          match rt with
          | some r =>
            if pyTruthy v ∧ r ≠ "" then { st6 with fret := dictSetS st6.fret v r } else st6
          | none => st6
        (none, .mk t v (cs.set j (bodyNode.withChildren body2)) l dt, st7)
    else if t = "Return" then
      match cs with
      | [] => (none, .mk t v cs l dt, st)
      | c0 :: rest =>
        let (rt, c0', st2) := analyzeNode fuel c0 st
        (rt, .mk t v (c0' :: rest) l rt, st2)
    else if t = "Try" then
      let (cs2, st2) := tryKids fuel cs st
      (none, .mk t v cs2 l dt, st2)
    else if t = "Continue" ∨ t = "Break" then (none, .mk t v cs l dt, st)
    else if t = "ExprStmt" then
      match cs with
      | [] => (none, .mk t v cs l dt, st)
      | c0 :: rest =>
        let (rt, c0', st2) := analyzeNode fuel c0 st
        (rt, .mk t v (c0' :: rest) l dt, st2)
    else if t = "BinaryOp" then
      match cs with
      | c0 :: c1 :: rest =>
        let (lt, c0', st2) := analyzeNode fuel c0 st
        let (rt, c1', st3) := analyzeNode fuel c1 st2
        let cs2 := c0' :: c1' :: rest
        match lt, rt with
        | some lt', some rt' =>
          (match datatype_check_py lt' rt' v with
           | some res => (some res, .mk t v cs2 l (some res), st3)
           | none =>
             (none, .mk t v cs2 l dt,
              { st3 with errors := st3.errors ++
                 [(l, "Type mismatch: cannot apply '" ++ pyStr v ++ "' to " ++
                      lt' ++ " and " ++ rt')] }))
        | _, _ => (none, .mk t v cs2 l dt, st3)
      | _ => (none, .mk t v cs l dt, st)
    else if t = "UnaryOp" then
      match cs with
      | [] => (none, .mk t v cs l dt, st)
      | c0 :: rest =>
        let (ot, c0', st2) := analyzeNode fuel c0 st
        let cs2 := c0' :: rest
        if v = .vstr "not" then
          if ot ≠ some DATA_TYPE_BOOL then
            (none, .mk t v cs2 l dt,
             { st2 with errors := st2.errors ++
                [(l, "'not' operator requires boolean, got " ++ strOfOpt ot)] })
          else (some DATA_TYPE_BOOL, .mk t v cs2 l (some DATA_TYPE_BOOL), st2)
        else if v = .vstr "+" ∨ v = .vstr "-" then
          if ot ≠ some DATA_TYPE_INT ∧ ot ≠ some DATA_TYPE_DOUBLE then
            (none, .mk t v cs2 l dt,
             { st2 with errors := st2.errors ++
                [(l, "Unary '" ++ pyStr v ++ "' requires numeric type, got " ++ strOfOpt ot)] })
          else (ot, .mk t v cs2 l ot, st2)
        else (none, .mk t v cs2 l dt, st2)
    else if t = "Identifier" then
      if v = .vstr DATA_TYPE_INT ∨ v = .vstr DATA_TYPE_DOUBLE ∨
         v = .vstr DATA_TYPE_STRING ∨ v = .vstr DATA_TYPE_BOOL then
        (some (pyStr v), .mk t v cs l (some (pyStr v)), st)
      else
        match SymbolTable.lookup st.scopes v with
        | none =>
          (none, .mk t v cs l dt,
           { st with errors := st.errors ++
              [(l, "Undeclared variable '" ++ pyStr v ++ "'")] })
        | some info => (some info.dtype, .mk t v cs l (some info.dtype), st)
    else if t = "Number" then
      if '.' ∈ (pyStr v).data then
        (some DATA_TYPE_DOUBLE, .mk t v cs l (some DATA_TYPE_DOUBLE), st)
      else (some DATA_TYPE_INT, .mk t v cs l (some DATA_TYPE_INT), st)
    else if t = "String" then
      (some DATA_TYPE_STRING, .mk t v cs l (some DATA_TYPE_STRING), st)
    else if t = "Literal" then
      (some DATA_TYPE_BOOL, .mk t v cs l (some DATA_TYPE_BOOL), st)
    else if t = "Call" then
      match cs with
      | [] => (none, .mk t v cs l dt, st)
      | c0 :: args =>
        let (ftype, c0', st2) := analyzeNode fuel c0 st
        if c0'.ntype = "Identifier" ∧
           (c0'.value = .vstr DATA_TYPE_INT ∨ c0'.value = .vstr DATA_TYPE_DOUBLE ∨
            c0'.value = .vstr DATA_TYPE_STRING ∨ c0'.value = .vstr DATA_TYPE_BOOL) then
          let (args2, st3) := analyzeSeq fuel args st2
          let castT := pyStr c0'.value
          (some castT, .mk t v (c0' :: args2) l (some castT), st3)
        else
          let (args2, st3) := analyzeSeq fuel args st2
          if c0'.ntype = "Identifier" ∧ ftype = some "function" then
            match dictGetS st3.fret c0'.value with
            | some rt => (some rt, .mk t v (c0' :: args2) l (some rt), st3)
            | none => (some "unknown", .mk t v (c0' :: args2) l (some "unknown"), st3)
          else (none, .mk t v (c0' :: args2) l dt, st3)
    else if t = "Attribute" then
      match cs with
      | [] => (none, .mk t v cs l dt, st)
      | c0 :: rest =>
        let (_, c0', st2) := analyzeNode fuel c0 st
        (none, .mk t v (c0' :: rest) l dt, st2)
    else (none, .mk t v cs l dt, st)
termination_by structural fuel => fuel

/-- Analyze a list of nodes in order (`for child in ...: analyze_node`). -/
def analyzeSeq : Nat → List Node → SemSt → List Node × SemSt
  | 0, ns, st => (ns, st)
  | _ + 1, [], st => ([], st)
  | fuel + 1, c :: rest, st =>
    let (_, c2, st2) := analyzeNode fuel c st
    let (rest2, st3) := analyzeSeq fuel rest st2
    (c2 :: rest2, st3)
termination_by structural fuel ns st => fuel

/-- Analyze a block body inside a fresh scope (push, analyze, pop). -/
def analyzeBlock : Nat → List Node → SemSt → List Node × SemSt
  | 0, ns, st => (ns, st)
  | fuel + 1, ns, st =>
    let (ns2, st2) := analyzeSeq fuel ns { st with scopes := SymbolTable.push_scope st.scopes }
    (ns2, { st2 with scopes := SymbolTable.pop_scope st2.scopes })
termination_by structural fuel ns st => fuel

/-- The child loop of the `If` case (src/parser.py lines 189-223). -/
def ifKids : Nat → Option Int → List Node → SemSt → List Node × SemSt
  | 0, _, ns, st => (ns, st)
  | _ + 1, _, [], st => ([], st)
  | fuel + 1, pl, child :: rest, st =>
    let (child2, st2) :=
      if child.ntype = "Condition" then
        match child.children with
        | [] => (child, st)
        | g0 :: grest =>
          let (ct, g0', st') := analyzeNode fuel g0 st
          (child.withChildren (g0' :: grest),
           condCheck st' pl ct "Condition must be boolean, got ")
      else if child.ntype = "Then" then
        let (b2, st') := analyzeBlock fuel child.children st
        (child.withChildren b2, st')
      else if child.ntype = "Elif" then
        let (sub2, st') := elifKids fuel pl child.children st
        (child.withChildren sub2, st')
      else if child.ntype = "Else" then
        let (b2, st') := analyzeBlock fuel child.children st
        (child.withChildren b2, st')
      else (child, st)
    let (rest2, st3) := ifKids fuel pl rest st2
    (child2 :: rest2, st3)
termination_by structural fuel pl ns st => fuel

/-- The subchild loop of the `Elif` case (src/parser.py lines 205-215). -/
def elifKids : Nat → Option Int → List Node → SemSt → List Node × SemSt
  | 0, _, ns, st => (ns, st)
  | _ + 1, _, [], st => ([], st)
  | fuel + 1, pl, sub :: rest, st =>
    let (sub2, st2) :=
      if sub.ntype = "Condition" ∧ ¬ sub.children.isEmpty then
        match sub.children with
        | [] => (sub, st)
        | g0 :: grest =>
          let (ct, g0', st') := analyzeNode fuel g0 st
          (sub.withChildren (g0' :: grest),
           condCheck st' pl ct "Elif condition must be boolean, got ")
      else if sub.ntype = "Body" then
        let (b2, st') := analyzeBlock fuel sub.children st
        (sub.withChildren b2, st')
      else (sub, st)
    let (rest2, st3) := elifKids fuel pl rest st2
    (sub2 :: rest2, st3)
termination_by structural fuel pl ns st => fuel

/-- The child loop of the `While` case (src/parser.py lines 226-240). -/
def whileKids : Nat → Option Int → List Node → SemSt → List Node × SemSt
  | 0, _, ns, st => (ns, st)
  | _ + 1, _, [], st => ([], st)
  | fuel + 1, pl, child :: rest, st =>
    let (child2, st2) :=
      if child.ntype = "Condition" then
        match child.children with
        | [] => (child, st)
        | g0 :: grest =>
          let (ct, g0', st') := analyzeNode fuel g0 st
          (child.withChildren (g0' :: grest),
           condCheck st' pl ct "While condition must be boolean, got ")
      else if child.ntype = "Body" then
        let (b2, st') := analyzeBlock fuel child.children st
        (child.withChildren b2, st')
      else (child, st)
    let (rest2, st3) := whileKids fuel pl rest st2
    (child2 :: rest2, st3)
termination_by structural fuel pl ns st => fuel

/-- The child loop of the `Try` case (src/parser.py lines 321-341). -/
def tryKids : Nat → List Node → SemSt → List Node × SemSt
  | 0, ns, st => (ns, st)
  | _ + 1, [], st => ([], st)
  | fuel + 1, child :: rest, st =>
    let (child2, st2) :=
      if child.ntype = "TryBlock" ∨ child.ntype = "Except" ∨ child.ntype = "Finally" then
        let (b2, st') := analyzeBlock fuel child.children st
        (child.withChildren b2, st')
      else (child, st)
    let (rest2, st3) := tryKids fuel rest st2
    (child2 :: rest2, st3)
termination_by structural fuel ns st => fuel

/-- Phase one of the `For` case (src/parser.py lines 248-255): remember
the last `Var` child's value and analyze the first child of each `Iter`
child. -/
def forScan : Nat → List Node → PyVal → SemSt → List Node × PyVal × SemSt
  | 0, ns, vn, st => (ns, vn, st)
  | _ + 1, [], vn, st => ([], vn, st)
  | fuel + 1, child :: rest, vn, st =>
    let (child2, vn2, st2) :=
      if child.ntype = "Var" then (child, child.value, st)
      else if child.ntype = "Iter" then
        match child.children with
        | [] => (child, vn, st)
        | g0 :: grest =>
          let (_, g0', st') := analyzeNode fuel g0 st
          (child.withChildren (g0' :: grest), vn, st')
      else (child, vn, st)
    let (rest2, vn3, st3) := forScan fuel rest vn2 st2
    (child2 :: rest2, vn3, st3)
termination_by structural fuel ns vn st => fuel

/-- Body loop of the `FunctionDef` case (src/parser.py lines 299-302):
analyze each statement and keep the `dtype` of the last `Return`
statement whose `dtype` is truthy. -/
def fnBody : Nat → List Node → Option String → SemSt → List Node × Option String × SemSt
  | 0, ns, rt, st => (ns, rt, st)
  | _ + 1, [], rt, st => ([], rt, st)
  | fuel + 1, stmt :: rest, rt, st =>
    let (_, stmt2, st2) := analyzeNode fuel stmt st
    let rt2 := if stmt2.ntype = "Return" ∧ truthyOptStr stmt2.dtype then stmt2.dtype else rt
    let (rest2, rt3, st3) := fnBody fuel rest rt2 st2
    (stmt2 :: rest2, rt3, st3)
termination_by structural fuel ns rt st => fuel

end

mutual

/-- Number of nodes in a tree (used to size the analyzer fuel). -/
def nodeWeight : Node → Nat
  | .mk _ _ cs _ _ => 1 + nodeListWeight cs

def nodeListWeight : List Node → Nat
  | [] => 0
  | n :: ns => nodeWeight n + nodeListWeight ns

end

/-- Fuel that is more than the analyzer can consume along any call
chain on this tree (each unit of fuel spent steps either into a child,
along a sibling list, or through one of the bounded per-node helper
dispatches). -/
def semFuel (root : Node) : Nat := 8 * nodeWeight root + 16

/-- One run of `semantic_analysis`: fresh symbol table (one global
scope), no errors, empty `function_return_types`. -/
def semanticRun (root : Node) : Option String × Node × SemSt :=
  analyzeNode (semFuel root) root ⟨[([] : Scope)], [], []⟩

/-- `semantic_analysis` (src/parser.py lines 127-484): returns the
collected error list. -/
def semantic_analysis (root : Node) : List SemErr := (semanticRun root).2.2.errors

/-- The tree after `semantic_analysis`, with its `dtype` annotations
(the Python function mutates the tree in place). -/
def semantic_annotated (root : Node) : Node := (semanticRun root).2.1

/-! The parser (src/parser.py lines 486-1181). -/

/-- Parser state (class `ParserState`): token list, current index,
collected `(line, message)` errors, and the panic flag. -/
structure PState where
  tokens : List Token
  i : Nat
  errors : List SemErr
  panic : Bool
deriving Repr

/-- The EOF token synthesized when reading past the end of the stream. -/
def synthEOF : Token := make_token TOKEN_EOF (.vstr "EOF") (-1) (-1)

namespace ParserState

/-- `ParserState.current`: the current token, or a synthesized EOF. -/
def current (st : PState) : Token := st.tokens.getD st.i synthEOF

/-- `ParserState.peek`: look ahead without advancing. -/
def peek (st : PState) (offset : Nat) : Token := st.tokens.getD (st.i + offset) synthEOF

/-- `ParserState.advance`: consume and return the current token,
clearing panic mode. -/
def advance (st : PState) : Token × PState :=
  (current st, { st with i := st.i + 1, panic := false })

/-- `ParserState.match`: non-consuming test of the current token's type
and/or value (a `none` criterion matches anything). -/
def pmatch (st : PState) (ttype : Option String) (value : Option PyVal) : Bool :=
  let cur := current st
  (match ttype with
   | none => true
   | some t => cur.ttype = t) &&
  (match value with
   | none => true
   | some v => cur.value = v)

/-- `ParserState.error`: record a diagnostic and enter panic mode. -/
def error (st : PState) (msg : String) (lineno : Option Int) : PState :=
  let ln := match lineno with
    | some l => l
    | none => (current st).lineno
  { st with errors := st.errors ++ [(some ln, msg)], panic := true }

/-- Python `repr` of an expected (type, value) pair, for the default
`expect` message. -/
def reprPair (p : String × Option PyVal) : String :=
  "('" ++ p.1 ++ "', " ++
    (match p.2 with
     | none => "None"
     | some (.vstr s) => "'" ++ s ++ "'"
     | some (.vint n) => toString n
     | some .vnone => "None") ++ ")"

/-- Python `repr` of the `expected_pairs` list. -/
def reprPairs (ps : List (String × Option PyVal)) : String :=
  "[" ++ String.intercalate ", " (ps.map reprPair) ++ "]"

/-- `ParserState.expect`: consume the current token when it matches one
of the pairs, else record a diagnostic (without consuming). -/
def expect (st : PState) (pairs : List (String × Option PyVal)) (msg : Option String) :
    Option Token × PState :=
  let cur := current st
  if pairs.any (fun p => cur.ttype = p.1 ∧ (p.2 = none ∨ some cur.value = p.2)) then
    let (tok, st2) := advance st
    (some tok, st2)
  else
    (none,
     error st
       (msg.getD ("Expected " ++ reprPairs pairs ++ ", got " ++ cur.ttype ++ "(" ++
         pyStr cur.value ++ ")"))
       (some cur.lineno))

/-- The loop of `ParserState.synchronize`: skip tokens until a safe
resume point. Each iteration consumes one token or returns, so fuel =
remaining tokens + 1 suffices. -/
def syncLoop : Nat → PState → PState
  | 0, st => st
  | fuel + 1, st =>
    if ¬ pmatch st (some TOKEN_EOF) none then
      if pmatch st (some TOKEN_NEWLINE) none then
        let (_, st2) := advance st
        { st2 with panic := false }
      else if pmatch st (some TOKEN_KEYWORD) none ∧
          (current st).value ∈ [PyVal.vstr "summon", .vstr "spot", .vstr "replay", .vstr "farm",
            .vstr "quest", .vstr "attack", .vstr "embark", .vstr "reward"] then
        { st with panic := false }
      else if pmatch st (some TOKEN_DEDENT) none then
        { st with panic := false }
      else
        let (_, st2) := advance st
        syncLoop fuel st2
    else { st with panic := false }

/-- `ParserState.synchronize`: no-op unless in panic mode. -/
def synchronize (st : PState) : PState :=
  if ¬ st.panic then st
  else syncLoop (st.tokens.length - st.i + 1) st

end ParserState

/-- Loop skipping NEWLINE tokens (`while state.match(TOKEN_NEWLINE):
state.advance()`); consumes one token per iteration. -/
def skipNewlines : Nat → PState → PState
  | 0, st => st
  | fuel + 1, st =>
    if ParserState.pmatch st (some TOKEN_NEWLINE) none then
      skipNewlines fuel (ParserState.advance st).2
    else st

/-- Wrapper supplying sufficient fuel to `skipNewlines`. -/
def skipNLs (st : PState) : PState := skipNewlines (st.tokens.length - st.i + 1) st

/-- Node construction in the parser always starts with `dtype = None`. -/
def mkNode (t : String) (v : PyVal) (cs : List Node) (l : Option Int) : Node :=
  .mk t v cs l none

/-- Marker state change for fuel exhaustion: never reached with the
fuel supplied by `parse` on the inputs evaluated below (the proved
equations exhibit error lists without a "FUEL" entry). -/
def fuelErr (st : PState) : PState :=
  { st with errors := st.errors ++ [(none, "FUEL")] }

mutual

/-- `parse_statement_list` (src/parser.py lines 601-645). -/
def parse_statement_list : Nat → List String → PState → List Node × PState
  | 0, _, st => ([], fuelErr st)
  | fuel + 1, stopOn, st => stmtListLoop fuel stopOn (skipNLs st)
termination_by structural fuel _ _ => fuel

/-- The statement loop of `parse_statement_list`. -/
def stmtListLoop : Nat → List String → PState → List Node × PState
  | 0, _, st => ([], fuelErr st)
  | fuel + 1, stopOn, st =>
    if ParserState.pmatch st (some TOKEN_EOF) none ∨
       ParserState.pmatch st (some TOKEN_DEDENT) none ∨
       (ParserState.current st).ttype ∈ stopOn then ([], st)
    else
      let (stO, st1) := parse_statement fuel st
      let st2 := ParserState.synchronize st1
      let st3 := skipNLs st2
      let stmts1 := match stO with
        | some n => [n]
        | none => []
      if ParserState.pmatch st3 (some TOKEN_EOF) none then (stmts1, st3)
      else
        let (rest, st4) := stmtListLoop fuel stopOn st3
        (stmts1 ++ rest, st4)
termination_by structural fuel _ _ => fuel

/-- `parse_statement` (src/parser.py lines 662-728): dispatch on the
current token, mirroring `KEYWORD_PARSERS`. -/
def parse_statement : Nat → PState → Option Node × PState
  | 0, st => (none, fuelErr st)
  | fuel + 1, st =>
    let cur := ParserState.current st
    if cur.ttype = TOKEN_COMMENT then
      let (tok, st1) := ParserState.advance st
      (some (mkNode "Comment" tok.value [] (some tok.lineno)), st1)
    else if cur.ttype = TOKEN_KEYWORD then
      if cur.value = .vstr "summon" then
        let (n, st1) := parse_import fuel st
        (some n, st1)
      else if cur.value = .vstr "spot" then
        let (n, st1) := parse_if fuel st
        (some n, st1)
      else if cur.value = .vstr "replay" then
        let (n, st1) := parse_while fuel st
        (some n, st1)
      else if cur.value = .vstr "farm" then
        let (n, st1) := parse_for fuel st
        (some n, st1)
      else if cur.value = .vstr "quest" then
        let (n, st1) := parse_function_def fuel st
        (some n, st1)
      else if cur.value = .vstr "attack" then
        let (n, st1) := parse_output_stmt fuel st
        (some n, st1)
      else if cur.value = .vstr "scout" then
        let (n, st1) := parse_input_stmt fuel st
        (some n, st1)
      else if cur.value = .vstr "embark" then
        let (n, st1) := parse_try_except fuel st
        (some n, st1)
      else if cur.value = .vstr "reward" then
        let (n, st1) := parse_return fuel st
        (some n, st1)
      else if cur.value = .vstr "skipEncounter" then
        let (tok, st1) := ParserState.advance st
        (some (mkNode "Continue" .vnone [] (some tok.lineno)), st1)
      else if cur.value = .vstr "escapeDungeon" then
        let (tok, st1) := ParserState.advance st
        (some (mkNode "Break" .vnone [] (some tok.lineno)), st1)
      else
        let (tok, st1) := ParserState.advance st
        (some (mkNode "KeywordStmt" tok.value [] (some tok.lineno)), st1)
    else if cur.ttype = TOKEN_DATATYPE then
      let nt := ParserState.peek st 1
      if nt.ttype = TOKEN_PUNCT ∧ nt.value = .vstr "(" then
        let (e, st1) := parse_expr fuel st
        if e.ntype = "Call" then (some (mkNode "ExprStmt" .vnone [e] (some cur.lineno)), st1)
        else
          let st2 := ParserState.error st1
            ("Invalid statement: datatype '" ++ pyStr cur.value ++ "' cannot stand alone")
            (some cur.lineno)
          (none, (ParserState.advance st2).2)
      else
        let st1 := ParserState.error st
          ("Invalid statement: datatype '" ++ pyStr cur.value ++ "' cannot stand alone")
          (some cur.lineno)
        (none, (ParserState.advance st1).2)
    else if cur.ttype = TOKEN_IDENTIFIER then
      let nt := ParserState.peek st 1
      if nt.ttype = TOKEN_PUNCT ∧ nt.value = .vstr "=" then
        let (n, st1) := parse_assignment fuel st
        (some n, st1)
      else if nt.ttype = TOKEN_OPERATOR ∧
          nt.value ∈ [PyVal.vstr "+=", .vstr "-=", .vstr "*=", .vstr "/=", .vstr "%=", .vstr "**="] then
        let (n, st1) := parse_compound_assignment fuel st
        (some n, st1)
      else if nt.ttype = TOKEN_PUNCT ∧ (nt.value = .vstr "(" ∨ nt.value = .vstr ".") then
        let (e, st1) := parse_expr fuel st
        if e.ntype = "Call" then (some (mkNode "ExprStmt" .vnone [e] (some cur.lineno)), st1)
        else
          (none, ParserState.error st1
            ("Invalid statement: '" ++ pyStr cur.value ++ "' expression has no effect")
            (some cur.lineno))
      else
        let st1 := ParserState.error st
          ("Invalid statement: bare identifier '" ++ pyStr cur.value ++ "' cannot stand alone")
          (some cur.lineno)
        (none, (ParserState.advance st1).2)
    else if cur.ttype = TOKEN_NEWLINE ∨ cur.ttype = TOKEN_EOF ∨ cur.ttype = TOKEN_DEDENT then
      (none, st)
    else
      let st1 := ParserState.error st
        ("Unexpected token: " ++ cur.ttype ++ " (" ++ pyStr cur.value ++ ")") (some cur.lineno)
      (none, (ParserState.advance st1).2)
termination_by structural fuel _ => fuel

/-- `parse_import` (src/parser.py lines 730-758). -/
def parse_import : Nat → PState → Node × PState
  | 0, st => (mkNode "Import" .vnone [] none, fuelErr st)
  | fuel + 1, st =>
    let (tokO, st1) := ParserState.expect st [(TOKEN_KEYWORD, some (.vstr "summon"))]
      (some "Expected 'summon' for import")
    match tokO with
    | none => (mkNode "Import" .vnone [] (some (ParserState.current st1).lineno), st1)
    | some tok =>
      if ¬ ParserState.pmatch st1 (some TOKEN_IDENTIFIER) none then
        (mkNode "Import" .vnone [] (some tok.lineno),
         ParserState.error st1 "Expected module name after 'summon'"
           (some (ParserState.current st1).lineno))
      else
        let (mods, st2) := importLoop fuel st1
        (mkNode "Import" .vnone mods (some tok.lineno), st2)
termination_by structural fuel _ => fuel

/-- The module-name loop of `parse_import`. -/
def importLoop : Nat → PState → List Node × PState
  | 0, st => ([], fuelErr st)
  | fuel + 1, st =>
    if ParserState.pmatch st (some TOKEN_IDENTIFIER) none then
      let (mid, st1) := ParserState.advance st
      let modNode := mkNode "Module" mid.value [] (some mid.lineno)
      if ParserState.pmatch st1 (some TOKEN_PUNCT) (some (.vstr ",")) then
        let (_, st2) := ParserState.advance st1
        if ¬ ParserState.pmatch st2 (some TOKEN_IDENTIFIER) none then
          ([modNode],
           ParserState.error st2 "Expected module name after ',' in import"
             (some (ParserState.current st2).lineno))
        else
          let (rest, st3) := importLoop fuel st2
          (modNode :: rest, st3)
      else ([modNode], st1)
    else
      ([], ParserState.error st "Expected module name in import statement"
        (some (ParserState.current st).lineno))
termination_by structural fuel _ => fuel

/-- `parse_assignment` (src/parser.py lines 760-774). -/
def parse_assignment : Nat → PState → Node × PState
  | 0, st => (mkNode "Assignment" .vnone [] none, fuelErr st)
  | fuel + 1, st =>
    let (identO, st1) := ParserState.expect st [(TOKEN_IDENTIFIER, none)]
      (some "Expected identifier in assignment")
    match identO with
    | none => (mkNode "Assignment" .vnone [] (some (ParserState.current st1).lineno), st1)
    | some ident =>
      let (_, st2) := ParserState.expect st1 [(TOKEN_PUNCT, some (.vstr "="))]
        (some "Expected '=' in assignment")
      if ParserState.pmatch st2 (some TOKEN_KEYWORD) (some (.vstr "scout")) then
        let (inp, st3) := parse_input_stmt fuel st2
        (mkNode "Assignment" ident.value [inp] (some ident.lineno), st3)
      else
        let (e, st3) := parse_expr fuel st2
        (mkNode "Assignment" ident.value [e] (some ident.lineno), st3)
termination_by structural fuel _ => fuel

/-- `parse_compound_assignment` (src/parser.py lines 777-795):
`x ⊕= e` desugars to `Assignment(x, BinaryOp(⊕, Identifier(x), e))`. -/
def parse_compound_assignment : Nat → PState → Node × PState
  | 0, st => (mkNode "Assignment" .vnone [] none, fuelErr st)
  | fuel + 1, st =>
    let (identO, st1) := ParserState.expect st [(TOKEN_IDENTIFIER, none)]
      (some "Expected identifier in compound assignment")
    match identO with
    | none => (mkNode "Assignment" .vnone [] (some (ParserState.current st1).lineno), st1)
    | some ident =>
      let (opO, st2) := ParserState.expect st1 [(TOKEN_OPERATOR, none)]
        (some "Expected compound operator")
      match opO with
      | none =>
        (mkNode "Assignment" ident.value [] (some ident.lineno),
         ParserState.error st2 "Expected +=, -=, *=, /=, %=, or **="
           (some (ParserState.current st2).lineno))
      | some op =>
        if op.value ∉ [PyVal.vstr "+=", .vstr "-=", .vstr "*=", .vstr "/=", .vstr "%=", .vstr "**="] then
          (mkNode "Assignment" ident.value [] (some ident.lineno),
           ParserState.error st2 "Expected +=, -=, *=, /=, %=, or **="
             (some (ParserState.current st2).lineno))
        else
          let (e, st3) := parse_expr fuel st2
          let baseOp := String.mk (pyStr op.value).data.dropLast
          let varNode := mkNode "Identifier" ident.value [] (some ident.lineno)
          let binop := mkNode "BinaryOp" (.vstr baseOp) [varNode, e] (some op.lineno)
          (mkNode "Assignment" ident.value [binop] (some ident.lineno), st3)
termination_by structural fuel _ => fuel

/-- `parse_input_stmt` (src/parser.py lines 797-807). -/
def parse_input_stmt : Nat → PState → Node × PState
  | 0, st => (mkNode "Input" .vnone [] none, fuelErr st)
  | fuel + 1, st =>
    let (startO, st1) := ParserState.expect st [(TOKEN_KEYWORD, some (.vstr "scout"))]
      (some "Expected 'scout' for input")
    match startO with
    | none => (mkNode "Input" .vnone [] (some (ParserState.current st1).lineno), st1)
    | some start =>
      let st2 := (ParserState.expect st1 [(TOKEN_PUNCT, some (.vstr "("))]
        (some "Expected '(' after 'scout'")).2
      let (e, st3) := parse_expr fuel st2
      let st4 := (ParserState.expect st3 [(TOKEN_PUNCT, some (.vstr ")"))]
        (some "Expected ')' after 'scout' argument")).2
      (mkNode "Input" .vnone [e] (some start.lineno), st4)
termination_by structural fuel _ => fuel

/-- `parse_output_stmt` (src/parser.py lines 810-827). -/
def parse_output_stmt : Nat → PState → Node × PState
  | 0, st => (mkNode "Output" .vnone [] none, fuelErr st)
  | fuel + 1, st =>
    let (startO, st1) := ParserState.expect st [(TOKEN_KEYWORD, some (.vstr "attack"))]
      (some "Expected 'attack' for output")
    match startO with
    | none => (mkNode "Output" .vnone [] (some (ParserState.current st1).lineno), st1)
    | some start =>
      let st2 := (ParserState.expect st1 [(TOKEN_PUNCT, some (.vstr "("))]
        (some "Expected '(' after 'attack'")).2
      let (args, st3) :=
        if ¬ ParserState.pmatch st2 (some TOKEN_PUNCT) (some (.vstr ")")) then
          outputArgsLoop fuel st2
        else ([], st2)
      let st4 := (ParserState.expect st3 [(TOKEN_PUNCT, some (.vstr ")"))]
        (some "Expected ')' after attack arguments")).2
      (mkNode "Output" .vnone args (some start.lineno), st4)
termination_by structural fuel _ => fuel

/-- The comma-separated argument loop of `parse_output_stmt`. -/
def outputArgsLoop : Nat → PState → List Node × PState
  | 0, st => ([], fuelErr st)
  | fuel + 1, st =>
    let (e, st1) := parse_expr fuel st
    if ParserState.pmatch st1 (some TOKEN_PUNCT) (some (.vstr ",")) then
      let (_, st2) := ParserState.advance st1
      let (rest, st3) := outputArgsLoop fuel st2
      (e :: rest, st3)
    else ([e], st1)
termination_by structural fuel _ => fuel

/-- `parse_condition` (src/parser.py lines 829-833). -/
def parse_condition : Nat → PState → Node × PState
  | 0, st => (mkNode "Empty" .vnone [] none, fuelErr st)
  | fuel + 1, st =>
    let st1 := (ParserState.expect st [(TOKEN_PUNCT, some (.vstr "("))]
      (some "Expected '(' before condition")).2
    let (cond, st2) := parse_expr fuel st1
    let st3 := (ParserState.expect st2 [(TOKEN_PUNCT, some (.vstr ")"))]
      (some "Expected ')' after condition")).2
    (cond, st3)
termination_by structural fuel _ => fuel

/-- `parse_if` (src/parser.py lines 835-869). -/
def parse_if : Nat → PState → Node × PState
  | 0, st => (mkNode "If" .vnone [] none, fuelErr st)
  | fuel + 1, st =>
    let (startO, st1) := ParserState.expect st [(TOKEN_KEYWORD, some (.vstr "spot"))]
      (some "Expected 'spot' for if")
    match startO with
    | none => (mkNode "If" .vnone [] (some (ParserState.current st1).lineno), st1)
    | some start =>
      let (cond, st2) := parse_condition fuel st1
      let st3 := (ParserState.expect st2 [(TOKEN_PUNCT, some (.vstr ":"))]
        (some "Expected ':' after if header")).2
      let (thenB, st4) := parse_statement_block fuel st3
      let condNode := mkNode "Condition" .vnone [cond] cond.lineno
      let thenNode := mkNode "Then" .vnone thenB (some start.lineno)
      let (elifs, st5) := elifLoop fuel st4
      let (elseNodes, st6) :=
        if ParserState.pmatch st5 (some TOKEN_KEYWORD) (some (.vstr "dodge")) then
          let (_, st5a) := ParserState.advance st5
          let st5b := (ParserState.expect st5a [(TOKEN_PUNCT, some (.vstr ":"))]
            (some "Expected ':' after 'dodge'")).2
          let (body, st5c) := parse_statement_block fuel st5b
          ([mkNode "Else" .vnone body (some (ParserState.current st5c).lineno)], st5c)
        else ([], st5)
      (mkNode "If" .vnone ([condNode, thenNode] ++ elifs ++ elseNodes) (some start.lineno), st6)
termination_by structural fuel _ => fuel

/-- The `counter` (elif) loop of `parse_if`. -/
def elifLoop : Nat → PState → List Node × PState
  | 0, st => ([], fuelErr st)
  | fuel + 1, st =>
    if ParserState.pmatch st (some TOKEN_KEYWORD) (some (.vstr "counter")) then
      let (_, st1) := ParserState.advance st
      let (ccond, st2) := parse_condition fuel st1
      let st3 := (ParserState.expect st2 [(TOKEN_PUNCT, some (.vstr ":"))]
        (some "Expected ':' after counter header")).2
      let (cbody, st4) := parse_statement_block fuel st3
      let elifNode := mkNode "Elif" .vnone
        [mkNode "Condition" .vnone [ccond] none, mkNode "Body" .vnone cbody none]
        (some (ParserState.current st4).lineno)
      let (rest, st5) := elifLoop fuel st4
      (elifNode :: rest, st5)
    else ([], st)
termination_by structural fuel _ => fuel

/-- `parse_while` (src/parser.py lines 871-886). -/
def parse_while : Nat → PState → Node × PState
  | 0, st => (mkNode "While" .vnone [] none, fuelErr st)
  | fuel + 1, st =>
    let (startO, st1) := ParserState.expect st [(TOKEN_KEYWORD, some (.vstr "replay"))]
      (some "Expected 'replay' for while")
    match startO with
    | none => (mkNode "While" .vnone [] (some (ParserState.current st1).lineno), st1)
    | some start =>
      let (cond, st2) := parse_condition fuel st1
      let st3 := (ParserState.expect st2 [(TOKEN_PUNCT, some (.vstr ":"))]
        (some "Expected ':' after while header")).2
      let (body, st4) := parse_statement_block fuel st3
      (mkNode "While" .vnone
        [mkNode "Condition" .vnone [cond] none, mkNode "Body" .vnone body none]
        (some start.lineno), st4)
termination_by structural fuel _ => fuel

/-- `parse_for` (src/parser.py lines 889-915). -/
def parse_for : Nat → PState → Node × PState
  | 0, st => (mkNode "For" .vnone [] none, fuelErr st)
  | fuel + 1, st =>
    let (startO, st1) := ParserState.expect st [(TOKEN_KEYWORD, some (.vstr "farm"))]
      (some "Expected 'farm' for for-loop")
    match startO with
    | none => (mkNode "For" .vnone [] (some (ParserState.current st1).lineno), st1)
    | some start =>
      let (varO, st2) := ParserState.expect st1 [(TOKEN_IDENTIFIER, none)]
        (some "Expected loop variable")
      let varNodes := match varO with
        | some var => [mkNode "Var" var.value [] (some var.lineno)]
        | none => []
      let inTok := ParserState.current st2
      let st3 :=
        if inTok.ttype = TOKEN_IDENTIFIER ∧ inTok.value = .vstr "in" then
          (ParserState.advance st2).2
        else
          ParserState.error st2 "Expected 'in' in for loop"
            (some (ParserState.current st2).lineno)
      let (iter, st4) := parse_expr fuel st3
      let st5 := (ParserState.expect st4 [(TOKEN_PUNCT, some (.vstr ":"))]
        (some "Expected ':' after for header")).2
      let (body, st6) := parse_statement_block fuel st5
      (mkNode "For" .vnone
        (varNodes ++ [mkNode "Iter" .vnone [iter] none, mkNode "Body" .vnone body none])
        (some start.lineno), st6)
termination_by structural fuel _ => fuel

/-- `parse_function_def` (src/parser.py lines 918-945). -/
def parse_function_def : Nat → PState → Node × PState
  | 0, st => (mkNode "FunctionDef" .vnone [] none, fuelErr st)
  | fuel + 1, st =>
    let (startO, st1) := ParserState.expect st [(TOKEN_KEYWORD, some (.vstr "quest"))]
      (some "Expected 'quest' for function def")
    match startO with
    | none => (mkNode "FunctionDef" .vnone [] (some (ParserState.current st1).lineno), st1)
    | some start =>
      let (nameO, st2) := ParserState.expect st1 [(TOKEN_IDENTIFIER, none)]
        (some "Expected function name")
      let nameVal := match nameO with
        | some nm => nm.value
        | none => .vnone
      let st3 := (ParserState.expect st2 [(TOKEN_PUNCT, some (.vstr "("))]
        (some "Expected '(' in function def")).2
      let (params, st4) :=
        if ¬ ParserState.pmatch st3 (some TOKEN_PUNCT) (some (.vstr ")")) then
          paramsLoop fuel st3
        else ([], st3)
      let st5 := (ParserState.expect st4 [(TOKEN_PUNCT, some (.vstr ")"))]
        (some "Expected ')' after parameters")).2
      let st6 := (ParserState.expect st5 [(TOKEN_PUNCT, some (.vstr ":"))]
        (some "Expected ':' after function header")).2
      let (body, st7) := parse_statement_block fuel st6
      (mkNode "FunctionDef" nameVal
        [mkNode "Params" .vnone (params.map (fun p => mkNode "Param" p [] none)) none,
         mkNode "Body" .vnone body none]
        (some start.lineno), st7)
termination_by structural fuel _ => fuel

/-- The parameter loop of `parse_function_def`. -/
def paramsLoop : Nat → PState → List PyVal × PState
  | 0, st => ([], fuelErr st)
  | fuel + 1, st =>
    let (pO, st1) := ParserState.expect st [(TOKEN_IDENTIFIER, none)]
      (some "Expected parameter name")
    let ps := match pO with
      | some p => [p.value]
      | none => []
    if ParserState.pmatch st1 (some TOKEN_PUNCT) (some (.vstr ",")) then
      let (_, st2) := ParserState.advance st1
      let (rest, st3) := paramsLoop fuel st2
      (ps ++ rest, st3)
    else (ps, st1)
termination_by structural fuel _ => fuel

/-- `parse_return` (src/parser.py lines 948-952). -/
def parse_return : Nat → PState → Node × PState
  | 0, st => (mkNode "Return" .vnone [] none, fuelErr st)
  | fuel + 1, st =>
    let (startO, st1) := ParserState.expect st [(TOKEN_KEYWORD, some (.vstr "reward"))]
      (some "Expected 'reward' for return")
    match startO with
    | none => (mkNode "Return" .vnone [] (some (ParserState.current st1).lineno), st1)
    | some start =>
      let (e, st2) := parse_expr fuel st1
      (mkNode "Return" .vnone [e] (some start.lineno), st2)
termination_by structural fuel _ => fuel

/-- `parse_try_except` (src/parser.py lines 954-977). -/
def parse_try_except : Nat → PState → Node × PState
  | 0, st => (mkNode "Try" .vnone [] none, fuelErr st)
  | fuel + 1, st =>
    let (startO, st1) := ParserState.expect st [(TOKEN_KEYWORD, some (.vstr "embark"))]
      (some "Expected 'embark' for try")
    match startO with
    | none => (mkNode "Try" .vnone [] (some (ParserState.current st1).lineno), st1)
    | some start =>
      let st2 := (ParserState.expect st1 [(TOKEN_PUNCT, some (.vstr ":"))]
        (some "Expected ':' after embark")).2
      let (tb, st3) := parse_statement_block fuel st2
      let (excepts, st4) := exceptLoop fuel st3
      let (finallyNodes, st5) :=
        if ParserState.pmatch st4 (some TOKEN_KEYWORD) (some (.vstr "savePoint")) then
          let (_, st4a) := ParserState.advance st4
          let st4b := (ParserState.expect st4a [(TOKEN_PUNCT, some (.vstr ":"))]
            (some "Expected ':' after savePoint")).2
          let (fb, st4c) := parse_statement_block fuel st4b
          ([mkNode "Finally" .vnone fb none], st4c)
        else ([], st4)
      (mkNode "Try" .vnone
        ([mkNode "TryBlock" .vnone tb none] ++ excepts ++ finallyNodes)
        (some start.lineno), st5)
termination_by structural fuel _ => fuel

/-- The `gameOver` (except) loop of `parse_try_except`. -/
def exceptLoop : Nat → PState → List Node × PState
  | 0, st => ([], fuelErr st)
  | fuel + 1, st =>
    if ParserState.pmatch st (some TOKEN_KEYWORD) (some (.vstr "gameOver")) then
      let (_, st1) := ParserState.advance st
      let (exO, st2) :=
        if ParserState.pmatch st1 (some TOKEN_IDENTIFIER) none then
          let (tok, st1a) := ParserState.advance st1
          (some tok, st1a)
        else (none, st1)
      let st3 := (ParserState.expect st2 [(TOKEN_PUNCT, some (.vstr ":"))]
        (some "Expected ':' after exception type")).2
      let (body, st4) := parse_statement_block fuel st3
      let exVal := match exO with
        | some tok => tok.value
        | none => .vnone
      let (rest, st5) := exceptLoop fuel st4
      (mkNode "Except" exVal body none :: rest, st5)
    else ([], st)
termination_by structural fuel _ => fuel

/-- `parse_statement_block` (src/parser.py lines 979-1001). -/
def parse_statement_block : Nat → PState → List Node × PState
  | 0, st => ([], fuelErr st)
  | fuel + 1, st =>
    let st1 :=
      if ¬ ParserState.pmatch st (some TOKEN_NEWLINE) none then
        ParserState.error st "Expected NEWLINE before block" (some (ParserState.current st).lineno)
      else (ParserState.advance st).2
    let st2 :=
      if ¬ ParserState.pmatch st1 (some TOKEN_INDENT) none then
        ParserState.error st1 "Expected INDENT to start block"
          (some (ParserState.current st1).lineno)
      else st1
    let st3 :=
      if ParserState.pmatch st2 (some TOKEN_INDENT) none then (ParserState.advance st2).2
      else st2
    let (stmts, st4) := parse_statement_list fuel [TOKEN_DEDENT, TOKEN_EOF] st3
    let st5 :=
      if ¬ ParserState.pmatch st4 (some TOKEN_DEDENT) none then
        ParserState.error st4 "Expected DEDENT after block"
          (some (ParserState.current st4).lineno)
      else (ParserState.advance st4).2
    (stmts, st5)
termination_by structural fuel _ => fuel

/-- `parse_expr` (src/parser.py lines 1003-1007). -/
def parse_expr : Nat → PState → Node × PState
  | 0, st => (mkNode "Empty" .vnone [] none, fuelErr st)
  | fuel + 1, st => parse_logical_or fuel st
termination_by structural fuel _ => fuel

/-- `parse_logical_or` (src/parser.py lines 1009-1020). -/
def parse_logical_or : Nat → PState → Node × PState
  | 0, st => (mkNode "Empty" .vnone [] none, fuelErr st)
  | fuel + 1, st =>
    let (left, st1) := parse_logical_and fuel st
    orLoop fuel left st1
termination_by structural fuel _ => fuel

/-- The `or` loop of `parse_logical_or`. -/
def orLoop : Nat → Node → PState → Node × PState
  | 0, left, st => (left, fuelErr st)
  | fuel + 1, left, st =>
    if ParserState.pmatch st (some TOKEN_OPERATOR) (some (.vstr "or")) then
      let (op, st1) := ParserState.advance st
      let (right, st2) := parse_logical_and fuel st1
      orLoop fuel (mkNode "BinaryOp" (.vstr "or") [left, right] (some op.lineno)) st2
    else (left, st)
termination_by structural fuel _ _ => fuel

/-- `parse_logical_and` (src/parser.py lines 1022-1033). -/
def parse_logical_and : Nat → PState → Node × PState
  | 0, st => (mkNode "Empty" .vnone [] none, fuelErr st)
  | fuel + 1, st =>
    let (left, st1) := parse_comparison fuel st
    andLoop fuel left st1
termination_by structural fuel _ => fuel

/-- The `and` loop of `parse_logical_and`. -/
def andLoop : Nat → Node → PState → Node × PState
  | 0, left, st => (left, fuelErr st)
  | fuel + 1, left, st =>
    if ParserState.pmatch st (some TOKEN_OPERATOR) (some (.vstr "and")) then
      let (op, st1) := ParserState.advance st
      let (right, st2) := parse_comparison fuel st1
      andLoop fuel (mkNode "BinaryOp" (.vstr "and") [left, right] (some op.lineno)) st2
    else (left, st)
termination_by structural fuel _ _ => fuel

/-- `parse_comparison` (src/parser.py lines 1035-1047). -/
def parse_comparison : Nat → PState → Node × PState
  | 0, st => (mkNode "Empty" .vnone [] none, fuelErr st)
  | fuel + 1, st =>
    let (left, st1) := parse_add_expr fuel st
    cmpLoop fuel left st1
termination_by structural fuel _ => fuel

/-- The comparison-operator loop of `parse_comparison`. -/
def cmpLoop : Nat → Node → PState → Node × PState
  | 0, left, st => (left, fuelErr st)
  | fuel + 1, left, st =>
    let cur := ParserState.current st
    if (cur.ttype = TOKEN_OPERATOR ∨ cur.ttype = TOKEN_PUNCT) ∧
        cur.value ∈ [PyVal.vstr "==", .vstr "!=", .vstr "<", .vstr ">", .vstr "<=", .vstr ">="] then
      let (op, st1) := ParserState.advance st
      let (right, st2) := parse_add_expr fuel st1
      cmpLoop fuel (mkNode "BinaryOp" op.value [left, right] (some op.lineno)) st2
    else (left, st)
termination_by structural fuel _ _ => fuel

/-- `parse_add_expr` (src/parser.py lines 1049-1057). Note the guard:
it only consumes `+`/`-` tokens whose type is PUNCT. -/
def parse_add_expr : Nat → PState → Node × PState
  | 0, st => (mkNode "Empty" .vnone [] none, fuelErr st)
  | fuel + 1, st =>
    let (left, st1) := parse_term fuel st
    addLoop fuel left st1
termination_by structural fuel _ => fuel

/-- The additive loop of `parse_add_expr`
(`while state.match(TOKEN_PUNCT) and value in ("+", "-")`). -/
def addLoop : Nat → Node → PState → Node × PState
  | 0, left, st => (left, fuelErr st)
  | fuel + 1, left, st =>
    if ParserState.pmatch st (some TOKEN_PUNCT) none ∧
        (ParserState.current st).value ∈ [PyVal.vstr "+", .vstr "-"] then
      let (op, st1) := ParserState.advance st
      let (right, st2) := parse_term fuel st1
      addLoop fuel (mkNode "BinaryOp" op.value [left, right] (some op.lineno)) st2
    else (left, st)
termination_by structural fuel _ _ => fuel

/-- `parse_term` (src/parser.py lines 1059-1068). -/
def parse_term : Nat → PState → Node × PState
  | 0, st => (mkNode "Empty" .vnone [] none, fuelErr st)
  | fuel + 1, st =>
    let (left, st1) := parse_exponent fuel st
    termLoop fuel left st1
termination_by structural fuel _ => fuel

/-- The multiplicative loop of `parse_term`. -/
def termLoop : Nat → Node → PState → Node × PState
  | 0, left, st => (left, fuelErr st)
  | fuel + 1, left, st =>
    if (ParserState.pmatch st (some TOKEN_PUNCT) none ∧
        (ParserState.current st).value ∈ [PyVal.vstr "*", .vstr "/", .vstr "%"]) ∨
       (ParserState.pmatch st (some TOKEN_OPERATOR) none ∧
        (ParserState.current st).value = .vstr "//") then
      let (op, st1) := ParserState.advance st
      let (right, st2) := parse_exponent fuel st1
      termLoop fuel (mkNode "BinaryOp" op.value [left, right] (some op.lineno)) st2
    else (left, st)
termination_by structural fuel _ _ => fuel

/-- `parse_exponent` (src/parser.py lines 1070-1079): right-associative
via recursion. -/
def parse_exponent : Nat → PState → Node × PState
  | 0, st => (mkNode "Empty" .vnone [] none, fuelErr st)
  | fuel + 1, st =>
    let (left, st1) := parse_unary fuel st
    if ParserState.pmatch st1 (some TOKEN_OPERATOR) (some (.vstr "**")) then
      let (op, st2) := ParserState.advance st1
      let (right, st3) := parse_exponent fuel st2
      (mkNode "BinaryOp" (.vstr "**") [left, right] (some op.lineno), st3)
    else (left, st1)
termination_by structural fuel _ => fuel

/-- `parse_unary` (src/parser.py lines 1081-1089). -/
def parse_unary : Nat → PState → Node × PState
  | 0, st => (mkNode "Empty" .vnone [] none, fuelErr st)
  | fuel + 1, st =>
    let cur := ParserState.current st
    if cur.ttype = TOKEN_OPERATOR ∧
        cur.value ∈ [PyVal.vstr "not", .vstr "+", .vstr "-"] then
      let (op, st1) := ParserState.advance st
      let (operand, st2) := parse_unary fuel st1
      (mkNode "UnaryOp" op.value [operand] (some op.lineno), st2)
    else parse_factor fuel st
termination_by structural fuel _ => fuel

/-- `parse_factor` (src/parser.py lines 1091-1140). -/
def parse_factor : Nat → PState → Node × PState
  | 0, st => (mkNode "Empty" .vnone [] none, fuelErr st)
  | fuel + 1, st =>
    let cur := ParserState.current st
    if cur.ttype = TOKEN_NUMBER ∨ cur.ttype = TOKEN_STRING ∨ cur.ttype = TOKEN_LITERAL then
      let (tok, st1) := ParserState.advance st
      let nt :=
        if tok.ttype = TOKEN_NUMBER then "Number"
        else if tok.ttype = TOKEN_STRING then "String"
        else "Literal"
      (mkNode nt tok.value [] (some tok.lineno), st1)
    else if cur.ttype = TOKEN_DATATYPE then
      let node := mkNode "Identifier" cur.value [] (some cur.lineno)
      let (_, st1) := ParserState.advance st
      parse_postfix_ops fuel node st1
    else if cur.ttype = TOKEN_IDENTIFIER then
      let node := mkNode "Identifier" cur.value [] (some cur.lineno)
      let (_, st1) := ParserState.advance st
      parse_postfix_ops fuel node st1
    else if cur.ttype = TOKEN_PUNCT ∧ cur.value = .vstr "(" then
      let (_, st1) := ParserState.advance st
      let (e, st2) := parse_expr fuel st1
      let st3 := (ParserState.expect st2 [(TOKEN_PUNCT, some (.vstr ")"))]
        (some "Expected ')' after parenthesized expression")).2
      (e, st3)
    else
      let st1 := ParserState.error st
        ("Unexpected expression token: " ++ cur.ttype ++ " (" ++ pyStr cur.value ++ ")")
        (some cur.lineno)
      (mkNode "Empty" .vnone [] (some cur.lineno), (ParserState.advance st1).2)
termination_by structural fuel _ => fuel

/-- `parse_postfix_ops` (src/parser.py lines 1143-1162). -/
def parse_postfix_ops : Nat → Node → PState → Node × PState
  | 0, node, st => (node, fuelErr st)
  | fuel + 1, node, st =>
    if ParserState.pmatch st (some TOKEN_PUNCT) (some (.vstr ".")) then
      let (_, st1) := ParserState.advance st
      if ParserState.pmatch st1 (some TOKEN_IDENTIFIER) none then
        let (attr, st2) := ParserState.advance st1
        parse_postfix_ops fuel (mkNode "Attribute" attr.value [node] (some attr.lineno)) st2
      else
        (node, ParserState.error st1 "Expected identifier after '.'"
          (some (ParserState.current st1).lineno))
    else if ParserState.pmatch st (some TOKEN_PUNCT) (some (.vstr "(")) then
      let (node2, st1) := parse_call_with_target fuel node st
      parse_postfix_ops fuel node2 st1
    else (node, st)
termination_by structural fuel _ _ => fuel

/-- `parse_call_with_target` (src/parser.py lines 1165-1180). -/
def parse_call_with_target : Nat → Node → PState → Node × PState
  | 0, node, st => (node, fuelErr st)
  | fuel + 1, target, st =>
    let (lparO, st1) := ParserState.expect st [(TOKEN_PUNCT, some (.vstr "("))]
      (some "Expected '(' for function call")
    let (args, st2) :=
      if ¬ ParserState.pmatch st1 (some TOKEN_PUNCT) (some (.vstr ")")) then
        callArgsLoop fuel st1
      else ([], st1)
    let st3 := (ParserState.expect st2 [(TOKEN_PUNCT, some (.vstr ")"))]
      (some "Expected ')' after call arguments")).2
    let ln := match lparO with
      | some lp => some lp.lineno
      | none => target.lineno
    (mkNode "Call" .vnone (target :: args) ln, st3)
termination_by structural fuel _ _ => fuel

/-- The comma-separated argument loop of `parse_call_with_target`. -/
def callArgsLoop : Nat → PState → List Node × PState
  | 0, st => ([], fuelErr st)
  | fuel + 1, st =>
    let (e, st1) := parse_expr fuel st
    if ParserState.pmatch st1 (some TOKEN_PUNCT) (some (.vstr ",")) then
      let (_, st2) := ParserState.advance st1
      let (rest, st3) := callArgsLoop fuel st2
      (e :: rest, st3)
    else ([e], st1)
termination_by structural fuel _ => fuel

end

/-- Fuel supplied by the `parse` wrapper: generous with respect to the
token count, so that the fueled loops never bottom out (observable in
the evaluated results: no "FUEL" diagnostic appears). -/
def parseFuel (tokens : List Token) : Nat := 10 * tokens.length + 100

/-- Fresh parser state over a token list. -/
def initPState (tokens : List Token) : PState := ⟨tokens, 0, [], false⟩

/-- The parsing stage of `parse` (src/parser.py lines 582-591): the
statement loop building the `Program` root, with the parse errors. -/
def parseStage (tokens : List Token) : Node × List SemErr :=
  let (stmts, st) := parse_statement_list (parseFuel tokens) [TOKEN_EOF] (initPState tokens)
  (.mk "Program" .vnone stmts (some 1) none, st.errors)

/-- `parse` (src/parser.py lines 582-599): parse, then run
`semantic_analysis` on the root (annotating it in place), and return the
annotated tree with parse errors followed by semantic errors. -/
def parse (tokens : List Token) : Node × List SemErr :=
  let (root, perrs) := parseStage tokens
  let res := semanticRun root
  (res.2.1, perrs ++ res.2.2.errors)

/-- `parse_expr` applied to a fresh state over the given tokens (the
expression-level entry point used to state the precedence claims). -/
def parse_expr_entry (tokens : List Token) : Node × PState :=
  parse_expr (parseFuel tokens) (initPState tokens)

/-! Infrastructure for the structural claims. -/

mutual

/-- Erase every `dtype` annotation in a tree: two trees with the same
`stripDtype` image agree on node kinds, values, children structure and
line numbers. -/
def stripDtype : Node → Node
  | .mk t v cs l _ => .mk t v (stripList cs) l none

def stripList : List Node → List Node
  | [] => []
  | n :: ns => stripDtype n :: stripList ns

end

/-- Symbol-table operations, for stating the scope-stack invariant. -/
inductive SymOp where
  | push
  | pop
  | decl (name : PyVal) (dtype : String) (line : Option Int)

/-- Apply one symbol-table operation. -/
def applySymOp (scopes : List Scope) : SymOp → List Scope
  | .push => SymbolTable.push_scope scopes
  | .pop => SymbolTable.pop_scope scopes
  | .decl n d l => SymbolTable.declare scopes n d l

/-- Apply a sequence of operations to the initial table (one global
scope), as built by the `SymbolTable` constructor. -/
def applySymOps (ops : List SymOp) : List Scope := ops.foldl applySymOp [([] : Scope)]

/-- The number of indentation levels still open after the per-line loop
of `scan_source` (entries of the indent stack above the bottom). -/
def openLevels (src : String) : Nat := (scanMain src).1.stack.length - 1

/-- The line number carried by the final DEDENT and EOF tokens. -/
def scanEndLine (src : String) : Int := Int.ofNat ((scanMain src).2 + 1)

/-! Concrete trees used by the function-re-inference and scope-isolation
claims (the shapes `parse` produces for the corresponding sources). -/

/-- `quest add(a, b): reward a + b` as a syntax tree. -/
def c2Fn : Node :=
  .mk "FunctionDef" (.vstr "add")
    [.mk "Params" .vnone
      [.mk "Param" (.vstr "a") [] none none, .mk "Param" (.vstr "b") [] none none] none none,
     .mk "Body" .vnone
      [.mk "Return" .vnone
        [.mk "BinaryOp" (.vstr "+")
          [.mk "Identifier" (.vstr "a") [] (some 2) none,
           .mk "Identifier" (.vstr "b") [] (some 2) none] (some 2) none] (some 2) none]
      none none] (some 1) none

/-- A call `add(1, arg2)` as a syntax tree. -/
def c2Call (arg2 : String) (ln : Int) : Node :=
  .mk "Call" .vnone
    [.mk "Identifier" (.vstr "add") [] (some ln) none,
     .mk "Number" (.vstr "1") [] (some ln) none,
     .mk "Number" (.vstr arg2) [] (some ln) none] (some ln) none

/-- The program of the re-inference example: define `add`, call it with
two integers, then with an integer and a floating-point literal. -/
def c2Prog : Node :=
  .mk "Program" .vnone
    [c2Fn,
     .mk "Assignment" (.vstr "r1") [c2Call "2" 3] (some 3) none,
     .mk "Assignment" (.vstr "r2") [c2Call "2.5" 4] (some 4) none] (some 1) none

/-- Child access by index (out of range gives the placeholder). -/
def getChild (n : Node) (i : Nat) : Node := n.children.getD i dummyNode

/-- Program with a name declared only inside an if-branch and used
right after the branch closes: `spot(true): v = 1` then `attack(v)`. -/
def c6Prog (v : String) (l1 l2 l3 : Int) : Node :=
  .mk "Program" .vnone
    [.mk "If" .vnone
      [.mk "Condition" .vnone [.mk "Literal" (.vstr "true") [] (some l1) none] (some l1) none,
       .mk "Then" .vnone
        [.mk "Assignment" (.vstr v) [.mk "Number" (.vstr "1") [] (some l2) none] (some l2) none]
        (some l1) none] (some l1) none,
     .mk "Output" .vnone [.mk "Identifier" (.vstr v) [] (some l3) none] (some l3) none]
    (some 1) none

/-! ## Scanner invariants used by the totality claim -/


theorem make_token_ttype (t : String) (v : PyVal) (l c : Int) :
    (make_token t v l c).ttype = t := rfl

theorem classifyWord_ne_EOF (w : String) : classifyWord w ≠ TOKEN_EOF := by
  simp only [classifyWord]
  repeat' split
  all_goals decide

theorem tokenizeContent_noEOF : ∀ (fuel : Nat) (s : List Char) (col : Nat) (ln : Int)
    (toks : List Token), (∀ tk ∈ toks, tk.ttype ≠ TOKEN_EOF) →
    ∀ tk ∈ (tokenizeContent fuel s col ln toks).1, tk.ttype ≠ TOKEN_EOF := by
  intro fuel
  induction fuel with
  | zero => intro s col ln toks hP; exact hP
  | succ fuel ih =>
    intro s col ln toks hP
    cases s with
    | nil => exact hP
    | cons c rest =>
      rw [tokenizeContent.eq_3]
      repeat' split
      all_goals try simp only []
      all_goals repeat' split
      all_goals (first
        | exact ih _ _ _ _ hP
        | (apply ih
           intro tk htk
           simp only [List.mem_append, List.mem_cons, List.not_mem_nil, or_false] at htk
           rcases htk with htk | htk
           · exact hP tk htk
           · subst htk
             repeat' split
             all_goals (simp only [make_token_ttype]
                        first
                          | decide
                          | exact classifyWord_ne_EOF _)))

theorem scanLine_noEOF (lineNo : Int) (rawLine : List Char) (st : ScanSt)
    (hP : ∀ tk ∈ st.tokens, tk.ttype ≠ TOKEN_EOF) :
    ∀ tk ∈ (scanLine lineNo rawLine st).tokens, tk.ttype ≠ TOKEN_EOF := by
  intro tk htk
  simp only [scanLine] at htk
  repeat' split at htk
  all_goals simp only [List.mem_append, List.mem_cons, List.mem_replicate,
    List.not_mem_nil, or_false, false_or] at htk
  all_goals try casesm* _ ∨ _, _ ∧ _
  all_goals (first
    | exact hP tk (by assumption)
    | (subst tk
       simp only [make_token_ttype]
       first
         | decide
         | exact classifyWord_ne_EOF _)
    | (refine tokenizeContent_noEOF _ _ _ _ _ ?_ tk (by assumption)
       intro t ht
       simp only [List.mem_append, List.mem_cons, List.mem_replicate,
         List.not_mem_nil, or_false, false_or] at ht
       try casesm* _ ∨ _, _ ∧ _
       all_goals (first
         | exact hP t (by assumption)
         | (subst t
            simp only [make_token_ttype]
            decide))))

theorem runLines_noEOF : ∀ (lines : List (List Char)) (n : Nat) (st : ScanSt),
    (∀ tk ∈ st.tokens, tk.ttype ≠ TOKEN_EOF) →
    ∀ tk ∈ (runLines n lines st).1.tokens, tk.ttype ≠ TOKEN_EOF := by
  intro lines
  induction lines with
  | nil => intro n st hP; exact hP
  | cons l rest ih =>
    intro n st hP
    exact ih (n + 1) _ (scanLine_noEOF (Int.ofNat (n + 1)) l st hP)

theorem unwindDedents_eq : ∀ (s : List Nat) (ln : Int),
    unwindDedents s ln
      = List.replicate (s.length - 1) (make_token TOKEN_DEDENT (.vstr "") ln 0) := by
  intro s ln
  induction s with
  | nil => rfl
  | cons a rest ih =>
    cases rest with
    | nil => rfl
    | cons b r2 =>
      rw [unwindDedents, ih]
      simp [List.replicate]

/-! ## The semantic pass preserves tree structure -/

theorem stripList_eq_map : ∀ ns : List Node, stripList ns = ns.map stripDtype := by
  intro ns
  induction ns with
  | nil => rfl
  | cons n rest ih => simp [stripList, ih]

theorem stripDtype_expand (n : Node) :
    stripDtype n = .mk n.ntype n.value (stripList n.children) n.lineno none := by
  cases n; rfl

theorem stripDtype_withChildren (n : Node) (xs : List Node) :
    stripDtype (n.withChildren xs) = .mk n.ntype n.value (stripList xs) n.lineno none := by
  cases n; rfl

theorem stripList_set (ns : List Node) (j : Nat) (x : Node) :
    stripList (ns.set j x) = (stripList ns).set j (stripDtype x) := by
  simp [stripList_eq_map, List.map_set]

theorem stripDtype_getD (ns : List Node) (j : Nat) (d : Node) :
    stripDtype (ns.getD j d) = (stripList ns).getD j (stripDtype d) := by
  induction ns generalizing j with
  | nil => cases j <;> simp [stripList, List.getD]
  | cons a rest ih =>
    cases j with
    | zero => simp [stripList, List.getD]
    | succ j2 => simpa [stripList, List.getD] using ih j2

theorem list_set_getD {α : Type} (l : List α) (j : Nat) (d : α) :
    l.set j (l.getD j d) = l := by
  induction l generalizing j with
  | nil => rfl
  | cons a rest ih =>
    cases j with
    | zero => simp [List.getD]
    | succ j2 =>
      have h2 := ih j2
      simp only [List.getD, List.get?_eq_getElem?] at h2
      simp only [List.getD, List.get?_eq_getElem?, List.getElem?_cons_succ, List.set]
      rw [h2]

theorem stripList_set_body (ns : List Node) (j : Nat) (xs : List Node)
    (hxs : stripList xs = stripList ((ns[j]?).getD dummyNode).children) :
    stripList (ns.set j (((ns[j]?).getD dummyNode).withChildren xs)) = stripList ns := by
  have hgd : ∀ m : List Node, (m[j]?).getD dummyNode = List.getD m j dummyNode := by
    intro m
    simp [List.getD, List.get?_eq_getElem?]
  rw [hgd] at hxs
  rw [hgd, stripList_set, stripDtype_withChildren, hxs,
    show (Node.mk (ns.getD j dummyNode).ntype (ns.getD j dummyNode).value
        (stripList (ns.getD j dummyNode).children) (ns.getD j dummyNode).lineno none)
      = stripDtype (ns.getD j dummyNode) from (stripDtype_expand _).symm,
    stripDtype_getD, list_set_getD]

set_option maxHeartbeats 4000000 in
theorem stripPack : ∀ fuel : Nat,
    (∀ n st, stripDtype (analyzeNode fuel n st).2.1 = stripDtype n) ∧
    (∀ ns st, stripList (analyzeSeq fuel ns st).1 = stripList ns) ∧
    (∀ ns st, stripList (analyzeBlock fuel ns st).1 = stripList ns) ∧
    (∀ pl ns st, stripList (ifKids fuel pl ns st).1 = stripList ns) ∧
    (∀ pl ns st, stripList (elifKids fuel pl ns st).1 = stripList ns) ∧
    (∀ pl ns st, stripList (whileKids fuel pl ns st).1 = stripList ns) ∧
    (∀ ns st, stripList (tryKids fuel ns st).1 = stripList ns) ∧
    (∀ ns vn st, stripList (forScan fuel ns vn st).1 = stripList ns) ∧
    (∀ ns rt st, stripList (fnBody fuel ns rt st).1 = stripList ns) := by
  intro fuel
  induction fuel with
  | zero =>
    exact ⟨fun _ _ => rfl, fun _ _ => rfl, fun _ _ => rfl, fun _ _ _ => rfl, fun _ _ _ => rfl,
      fun _ _ _ => rfl, fun _ _ => rfl, fun _ _ _ => rfl, fun _ _ _ => rfl⟩
  | succ fuel ih =>
    obtain ⟨ihN, ihSeq, ihBlk, ihIf, ihElif, ihWhile, ihTry, ihFor, ihFn⟩ := ih
    refine ⟨?_, ?_, ?_, ?_, ?_, ?_, ?_, ?_, ?_⟩
    · intro n st
      cases n with
      | mk t v cs l dt =>
        cases cs with
        | nil =>
          rw [analyzeNode.eq_2]
          by_cases h1 : t = "Program"
          · rw [if_pos h1]
            all_goals simp [stripDtype, stripList, ihSeq]
          rw [if_neg h1]
          by_cases h2 : t = "Comment"
          · rw [if_pos h2]
            all_goals rfl
          rw [if_neg h2]
          by_cases h3 : t = "Import"
          · rw [if_pos h3]
            all_goals rfl
          rw [if_neg h3]
          by_cases h4 : t = "Assignment"
          · rw [if_pos h4]
            repeat' split
            all_goals rfl
          rw [if_neg h4]
          by_cases h5 : t = "Input"
          · rw [if_pos h5]
            all_goals rfl
          rw [if_neg h5]
          by_cases h6 : t = "Output"
          · rw [if_pos h6]
            all_goals simp [stripDtype, stripList, ihSeq]
          rw [if_neg h6]
          by_cases h7 : t = "If"
          · rw [if_pos h7]
            all_goals simp [stripDtype, stripList, ihIf]
          rw [if_neg h7]
          by_cases h8 : t = "While"
          · rw [if_pos h8]
            all_goals simp [stripDtype, stripList, ihWhile]
          rw [if_neg h8]
          by_cases h9 : t = "For"
          · rw [if_pos h9]
            repeat' split
            all_goals (first | rfl | simp [stripDtype, stripList, ihFor, ihSeq, stripList_set_body])
          rw [if_neg h9]
          by_cases h10 : t = "FunctionDef"
          · rw [if_pos h10]
            repeat' split
            all_goals (first | rfl | simp [stripDtype, stripList, ihFn, stripList_set_body])
          rw [if_neg h10]
          by_cases h11 : t = "Return"
          · rw [if_pos h11]
            all_goals rfl
          rw [if_neg h11]
          by_cases h12 : t = "Try"
          · rw [if_pos h12]
            all_goals simp [stripDtype, stripList, ihTry]
          rw [if_neg h12]
          by_cases h13 : t = "Continue" ∨ t = "Break"
          · rw [if_pos h13]
            all_goals rfl
          rw [if_neg h13]
          by_cases h14 : t = "ExprStmt"
          · rw [if_pos h14]
            all_goals rfl
          rw [if_neg h14]
          by_cases h15 : t = "BinaryOp"
          · rw [if_pos h15]
            all_goals rfl
          rw [if_neg h15]
          by_cases h16 : t = "UnaryOp"
          · rw [if_pos h16]
            all_goals rfl
          rw [if_neg h16]
          by_cases h17 : t = "Identifier"
          · rw [if_pos h17]
            repeat' split
            all_goals rfl
          rw [if_neg h17]
          by_cases h18 : t = "Number"
          · rw [if_pos h18]
            repeat' split
            all_goals rfl
          rw [if_neg h18]
          by_cases h19 : t = "String"
          · rw [if_pos h19]
            all_goals rfl
          rw [if_neg h19]
          by_cases h20 : t = "Literal"
          · rw [if_pos h20]
            all_goals rfl
          rw [if_neg h20]
          by_cases h21 : t = "Call"
          · rw [if_pos h21]
            all_goals rfl
          rw [if_neg h21]
          by_cases h22 : t = "Attribute"
          · rw [if_pos h22]
            all_goals rfl
          rw [if_neg h22]
          all_goals rfl
        | cons c0 rest =>
          rw [analyzeNode.eq_3]
          by_cases h1 : t = "Program"
          · rw [if_pos h1]
            all_goals simp [stripDtype, stripList, ihSeq]
          rw [if_neg h1]
          by_cases h2 : t = "Comment"
          · rw [if_pos h2]
            all_goals rfl
          rw [if_neg h2]
          by_cases h3 : t = "Import"
          · rw [if_pos h3]
            all_goals rfl
          rw [if_neg h3]
          by_cases h4 : t = "Assignment"
          · rw [if_pos h4]
            repeat' split
            all_goals (first | rfl | simp [stripDtype, stripList, ihN])
          rw [if_neg h4]
          by_cases h5 : t = "Input"
          · rw [if_pos h5]
            all_goals rfl
          rw [if_neg h5]
          by_cases h6 : t = "Output"
          · rw [if_pos h6]
            all_goals simp [stripDtype, stripList, ihSeq]
          rw [if_neg h6]
          by_cases h7 : t = "If"
          · rw [if_pos h7]
            all_goals simp [stripDtype, stripList, ihIf]
          rw [if_neg h7]
          by_cases h8 : t = "While"
          · rw [if_pos h8]
            all_goals simp [stripDtype, stripList, ihWhile]
          rw [if_neg h8]
          by_cases h9 : t = "For"
          · rw [if_pos h9]
            repeat' split
            all_goals (first | rfl | simp [stripDtype, stripList, ihFor, ihSeq, stripList_set_body])
          rw [if_neg h9]
          by_cases h10 : t = "FunctionDef"
          · rw [if_pos h10]
            repeat' split
            all_goals (first | rfl | simp [stripDtype, stripList, ihFn, stripList_set_body])
          rw [if_neg h10]
          by_cases h11 : t = "Return"
          · rw [if_pos h11]
            rcases hc0 : analyzeNode fuel c0 st with ⟨r0, c0x, st2⟩
            have e0 := ihN c0 st
            rw [hc0] at e0
            simp only [hc0]
            repeat' split
            all_goals (first | rfl | simp [stripDtype, stripList, e0, ihSeq])
          rw [if_neg h11]
          by_cases h12 : t = "Try"
          · rw [if_pos h12]
            all_goals simp [stripDtype, stripList, ihTry]
          rw [if_neg h12]
          by_cases h13 : t = "Continue" ∨ t = "Break"
          · rw [if_pos h13]
            all_goals rfl
          rw [if_neg h13]
          by_cases h14 : t = "ExprStmt"
          · rw [if_pos h14]
            rcases hc0 : analyzeNode fuel c0 st with ⟨r0, c0x, st2⟩
            have e0 := ihN c0 st
            rw [hc0] at e0
            simp only [hc0]
            repeat' split
            all_goals (first | rfl | simp [stripDtype, stripList, e0, ihSeq])
          rw [if_neg h14]
          by_cases h15 : t = "BinaryOp"
          · rw [if_pos h15]
            cases rest with
            | nil => rfl
            | cons c1 rest2 =>
              rcases hc0 : analyzeNode fuel c0 st with ⟨lt, c0x, st2⟩
              have e0 := ihN c0 st
              rw [hc0] at e0
              rcases hc1 : analyzeNode fuel c1 st2 with ⟨rt, c1x, st3⟩
              have e1 := ihN c1 st2
              rw [hc1] at e1
              simp only [hc0, hc1]
              repeat' split
              all_goals (first | rfl | simp [stripDtype, stripList, e0, e1])
          rw [if_neg h15]
          by_cases h16 : t = "UnaryOp"
          · rw [if_pos h16]
            rcases hc0 : analyzeNode fuel c0 st with ⟨r0, c0x, st2⟩
            have e0 := ihN c0 st
            rw [hc0] at e0
            simp only [hc0]
            repeat' split
            all_goals (first | rfl | simp [stripDtype, stripList, e0, ihSeq])
          rw [if_neg h16]
          by_cases h17 : t = "Identifier"
          · rw [if_pos h17]
            repeat' split
            all_goals rfl
          rw [if_neg h17]
          by_cases h18 : t = "Number"
          · rw [if_pos h18]
            repeat' split
            all_goals rfl
          rw [if_neg h18]
          by_cases h19 : t = "String"
          · rw [if_pos h19]
            all_goals rfl
          rw [if_neg h19]
          by_cases h20 : t = "Literal"
          · rw [if_pos h20]
            all_goals rfl
          rw [if_neg h20]
          by_cases h21 : t = "Call"
          · rw [if_pos h21]
            rcases hc0 : analyzeNode fuel c0 st with ⟨r0, c0x, st2⟩
            have e0 := ihN c0 st
            rw [hc0] at e0
            simp only [hc0]
            repeat' split
            all_goals (first | rfl | simp [stripDtype, stripList, e0, ihSeq])
          rw [if_neg h21]
          by_cases h22 : t = "Attribute"
          · rw [if_pos h22]
            rcases hc0 : analyzeNode fuel c0 st with ⟨r0, c0x, st2⟩
            have e0 := ihN c0 st
            rw [hc0] at e0
            simp only [hc0]
            repeat' split
            all_goals (first | rfl | simp [stripDtype, stripList, e0, ihSeq])
          rw [if_neg h22]
          all_goals rfl
    · intro ns st
      cases ns with
      | nil => rfl
      | cons c rest => simp [analyzeSeq, stripList, ihN, ihSeq]
    · intro ns st
      simp [analyzeBlock, ihSeq]
    · intro pl ns st
      cases ns with
      | nil => rfl
      | cons child rest =>
        rw [ifKids.eq_3]
        by_cases hc1 : child.ntype = "Condition"
        · rw [if_pos hc1]
          rcases hcc : child.children with _ | ⟨g0, grest⟩
          · simp [stripList, ihIf]
          · rcases hg : analyzeNode fuel g0 st with ⟨ct, g0x, stx⟩
            have e0 := ihN g0 st
            rw [hg] at e0
            simp only [hg]
            simp [stripList, stripDtype_withChildren, ihIf, e0,
              show stripDtype child = _ from stripDtype_expand child, hcc]
        rw [if_neg hc1]
        by_cases hc2 : child.ntype = "Then"
        · rw [if_pos hc2]
          simp [stripList, stripDtype_withChildren, ihIf, ihBlk,
            show stripDtype child = _ from stripDtype_expand child]
        rw [if_neg hc2]
        by_cases hc3 : child.ntype = "Elif"
        · rw [if_pos hc3]
          simp [stripList, stripDtype_withChildren, ihIf, ihElif,
            show stripDtype child = _ from stripDtype_expand child]
        rw [if_neg hc3]
        by_cases hc4 : child.ntype = "Else"
        · rw [if_pos hc4]
          simp [stripList, stripDtype_withChildren, ihIf, ihBlk,
            show stripDtype child = _ from stripDtype_expand child]
        rw [if_neg hc4]
        simp [stripList, ihIf]
    · intro pl ns st
      cases ns with
      | nil => rfl
      | cons sub rest =>
        rw [elifKids.eq_3]
        by_cases hc1 : sub.ntype = "Condition" ∧ ¬ sub.children.isEmpty = true
        · rw [if_pos hc1]
          rcases hcc : sub.children with _ | ⟨g0, grest⟩
          · simp [stripList, ihElif]
          · rcases hg : analyzeNode fuel g0 st with ⟨ct, g0x, stx⟩
            have e0 := ihN g0 st
            rw [hg] at e0
            simp only [hg]
            simp [stripList, stripDtype_withChildren, ihElif, e0,
              show stripDtype sub = _ from stripDtype_expand sub, hcc]
        rw [if_neg hc1]
        by_cases hc2 : sub.ntype = "Body"
        · rw [if_pos hc2]
          simp [stripList, stripDtype_withChildren, ihElif, ihBlk,
            show stripDtype sub = _ from stripDtype_expand sub]
        rw [if_neg hc2]
        simp [stripList, ihElif]
    · intro pl ns st
      cases ns with
      | nil => rfl
      | cons child rest =>
        rw [whileKids.eq_3]
        by_cases hc1 : child.ntype = "Condition"
        · rw [if_pos hc1]
          rcases hcc : child.children with _ | ⟨g0, grest⟩
          · simp [stripList, ihWhile]
          · rcases hg : analyzeNode fuel g0 st with ⟨ct, g0x, stx⟩
            have e0 := ihN g0 st
            rw [hg] at e0
            simp only [hg]
            simp [stripList, stripDtype_withChildren, ihWhile, e0,
              show stripDtype child = _ from stripDtype_expand child, hcc]
        rw [if_neg hc1]
        by_cases hc2 : child.ntype = "Body"
        · rw [if_pos hc2]
          simp [stripList, stripDtype_withChildren, ihWhile, ihBlk,
            show stripDtype child = _ from stripDtype_expand child]
        rw [if_neg hc2]
        simp [stripList, ihWhile]
    · intro ns st
      cases ns with
      | nil => rfl
      | cons child rest =>
        rw [tryKids.eq_3]
        by_cases hc1 : child.ntype = "TryBlock" ∨ child.ntype = "Except" ∨ child.ntype = "Finally"
        · rw [if_pos hc1]
          simp [stripList, stripDtype_withChildren, ihTry, ihBlk,
            show stripDtype child = _ from stripDtype_expand child]
        rw [if_neg hc1]
        simp [stripList, ihTry]
    · intro ns vn st
      cases ns with
      | nil => rfl
      | cons child rest =>
        rw [forScan.eq_3]
        by_cases hc1 : child.ntype = "Var"
        · rw [if_pos hc1]
          simp [stripList, ihFor]
        rw [if_neg hc1]
        by_cases hc2 : child.ntype = "Iter"
        · rw [if_pos hc2]
          rcases hcc : child.children with _ | ⟨g0, grest⟩
          · simp [stripList, ihFor]
          · rcases hg : analyzeNode fuel g0 st with ⟨ct, g0x, stx⟩
            have e0 := ihN g0 st
            rw [hg] at e0
            simp only [hg]
            simp [stripList, stripDtype_withChildren, ihFor, e0,
              show stripDtype child = _ from stripDtype_expand child, hcc]
        rw [if_neg hc2]
        simp [stripList, ihFor]
    · intro ns rt st
      cases ns with
      | nil => rfl
      | cons stmt rest => simp [fnBody, stripList, ihN, ihFn]

/-! ## Claim theorems -/

/-- C1: claimed that `parse` on `2 + 3 * 4` yields
`BinaryOp(+, Number 2, BinaryOp(*, Number 3, Number 2))` and on
`2 ** 3 ** 2` a right-nested `**` tree. The scanner emits binary `+`
as an OPERATOR token while `parse_add_expr` only matches PUNCT tokens,
so the additive expression never parses past its first term: the
expression parser consumes exactly the `2` and stops. The `**` half of
the claim does hold (right-associative nesting). -/
theorem c1_binary_plus_unparsed :
    scan_source "2 + 3 * 4" =
      [make_token TOKEN_NUMBER (.vstr "2") 1 0,
       make_token TOKEN_OPERATOR (.vstr "+") 1 2,
       make_token TOKEN_NUMBER (.vstr "3") 1 4,
       make_token TOKEN_PUNCT (.vstr "*") 1 6,
       make_token TOKEN_NUMBER (.vstr "4") 1 8,
       make_token TOKEN_NEWLINE (.vstr "") 1 9,
       make_token TOKEN_EOF (.vstr "") 2 0] ∧
    (parse_expr_entry (scan_source "2 + 3 * 4")).1 = mkNode "Number" (.vstr "2") [] (some 1) ∧
    (parse_expr_entry (scan_source "2 + 3 * 4")).2.i = 1 ∧
    (parse_expr_entry (scan_source "2 ** 3 ** 2")).1 =
      mkNode "BinaryOp" (.vstr "**")
        [mkNode "Number" (.vstr "2") [] (some 1),
         mkNode "BinaryOp" (.vstr "**")
           [mkNode "Number" (.vstr "3") [] (some 1),
            mkNode "Number" (.vstr "2") [] (some 1)] (some 1)] (some 1) :=
  ⟨rfl, rfl, rfl, rfl⟩

/-- Refutation for C2: on the program `quest add(a,b): reward a + b`
followed by `r1 = add(1, 2)` and `r2 = add(1, 2.5)`, the first call
site is annotated `elixir`, not `potion` as the claim predicts. -/
theorem c2_single_pass_cex :
    (getChild (getChild (semantic_annotated c2Prog) 1) 0).dtype = some DATA_TYPE_DOUBLE ∧
    some DATA_TYPE_DOUBLE ≠ some DATA_TYPE_INT := ⟨rfl, by decide⟩

/-- C2 (corrected): the analyzer infers one return type per function
name while analyzing the definition body (parameters get dtype
"unknown", and `unknown + unknown` combines to `elixir`), stores it in
`function_return_types`, and every call site reads that single stored
type; there is no per-call re-analysis. Both `add(1, 2)` and
`add(1, 2.5)` are annotated `elixir`, with no diagnostics. -/
theorem c2_single_pass_return_type :
    dictGetS (semanticRun c2Prog).2.2.fret (.vstr "add") = some DATA_TYPE_DOUBLE ∧
    (getChild (getChild (semantic_annotated c2Prog) 1) 0).dtype = some DATA_TYPE_DOUBLE ∧
    (getChild (getChild (semantic_annotated c2Prog) 2) 0).dtype = some DATA_TYPE_DOUBLE ∧
    semantic_analysis c2Prog = [] := ⟨rfl, rfl, rfl, rfl⟩

/-- Refutation for C3: `datatype_check "unknown" "potion" "+"` yields
`elixir`, not `"unknown"` as the claim predicts. -/
theorem c3_unknown_operand_cex :
    datatype_check "unknown" "potion" "+" = some DATA_TYPE_DOUBLE ∧
    some DATA_TYPE_DOUBLE ≠ some "unknown" := ⟨rfl, by decide⟩

/-- C3 (corrected): when either operand type is `"unknown"`,
`datatype_check` emits no diagnostic (it never returns `none`), but
the result is `"unknown"` only for an unrecognised operator: an
arithmetic operator gives `elixir` and a comparison or logical
operator gives `fate`. -/
theorem c3_unknown_operand (t1 t2 op : String) (h : t1 = "unknown" ∨ t2 = "unknown") :
    datatype_check t1 t2 op =
      some (if op ∈ ["+", "-", "*", "/", "//", "%", "**"] then DATA_TYPE_DOUBLE
            else if op ∈ ["<", ">", "<=", ">=", "==", "!=", "and", "or"] then DATA_TYPE_BOOL
            else "unknown") ∧
    datatype_check t1 t2 op ≠ none := by
  unfold datatype_check
  rw [if_pos h]
  constructor
  · split_ifs <;> simp_all
  · split_ifs <;> simp

/-- Closed instances of the C3 theorem at concrete inputs. -/
theorem c3_unknown_operand_wit : ("unknown" = "unknown" ∨ ("potion" : String) = "unknown") ∧
    datatype_check "unknown" "potion" "+" = some DATA_TYPE_DOUBLE ∧
    datatype_check "potion" "unknown" "<" = some DATA_TYPE_BOOL ∧
    datatype_check "unknown" "potion" "=" = some "unknown" :=
  ⟨Or.inl rfl,
   by simpa using (c3_unknown_operand "unknown" "potion" "+" (Or.inl rfl)).1,
   by simpa using (c3_unknown_operand "potion" "unknown" "<" (Or.inr rfl)).1,
   by simpa using (c3_unknown_operand "unknown" "potion" "=" (Or.inl rfl)).1⟩

/-- Refutation for C4: integer division of two `potion` operands stays
`potion`; `/` does not always promote to `elixir`. -/
theorem c4_division_promotion_cex :
    datatype_check DATA_TYPE_INT DATA_TYPE_INT "/" = some DATA_TYPE_INT ∧
    some DATA_TYPE_INT ≠ some DATA_TYPE_DOUBLE := ⟨rfl, by decide⟩

/-- C4 (corrected): for numeric operands, `/` yields `elixir` exactly
when at least one operand is `elixir`; with both operands `potion` the
result is `potion` (all arithmetic operators are handled by the same
numeric-pair rule, with no special case for division). -/
theorem c4_division_promotion (t1 t2 : String)
    (h1 : t1 = DATA_TYPE_INT ∨ t1 = DATA_TYPE_DOUBLE)
    (h2 : t2 = DATA_TYPE_INT ∨ t2 = DATA_TYPE_DOUBLE) :
    datatype_check t1 t2 "/" =
      some (if t1 = DATA_TYPE_DOUBLE ∨ t2 = DATA_TYPE_DOUBLE then DATA_TYPE_DOUBLE
            else DATA_TYPE_INT) := by
  rcases h1 with h1 | h1 <;> rcases h2 with h2 | h2 <;> subst h1 <;> subst h2 <;> rfl

/-- Closed instances of the C4 theorem at concrete inputs. -/
theorem c4_division_promotion_wit :
    ((DATA_TYPE_INT = DATA_TYPE_INT ∨ DATA_TYPE_INT = DATA_TYPE_DOUBLE) ∧
     datatype_check DATA_TYPE_INT DATA_TYPE_INT "/" = some DATA_TYPE_INT) ∧
    datatype_check DATA_TYPE_INT DATA_TYPE_DOUBLE "/" = some DATA_TYPE_DOUBLE :=
  ⟨⟨Or.inl rfl, by
      simpa using c4_division_promotion DATA_TYPE_INT DATA_TYPE_INT (Or.inl rfl) (Or.inl rfl)⟩,
   by
      simpa using c4_division_promotion DATA_TYPE_INT DATA_TYPE_DOUBLE (Or.inl rfl) (Or.inr rfl)⟩

/-- Refutation for C5: on `"text" - 5` the semantic analyzer reports
nothing at all (the parser never builds the `-` BinaryOp, because `-`
arrives as an OPERATOR token and `parse_add_expr` matches only PUNCT),
while the parser itself records three diagnostics. -/
theorem c5_pipeline_diagnostics_cex :
    semantic_analysis (parseStage (scan_source "\"text\" - 5")).1 = [] ∧
    (parseStage (scan_source "\"text\" - 5")).2 =
      [(some 1, "Unexpected token: STRING (\"text\")"),
       (some 1, "Unexpected token: OPERATOR (-)"),
       (some 1, "Unexpected token: NUMBER (5)")] := ⟨rfl, rfl⟩

/-- C5 (corrected): the pipeline on `"text" - 5` produces exactly three
diagnostics, all of parser origin (`Unexpected token` for each of the
three tokens, since `advance()` clears panic mode and re-enables error
reporting), and no semantic diagnostic about `-` on scroll/potion. -/
theorem c5_pipeline_diagnostics :
    (parse (scan_source "\"text\" - 5")).2 =
      [(some 1, "Unexpected token: STRING (\"text\")"),
       (some 1, "Unexpected token: OPERATOR (-)"),
       (some 1, "Unexpected token: NUMBER (5)")] := rfl

/-- C6: a name declared only inside an if-branch is gone once the
branch's block closes: `If` pushes a scope around the `Then` block and
pops it afterwards, so a following use of the name yields exactly one
"Undeclared variable" diagnostic (for any non-reserved, non-empty
variable name and any line numbers). -/
theorem c6_scope_isolation (v : String) (l1 l2 l3 : Int)
    (hv : v ∉ ["potion", "elixir", "scroll", "fate"]) (hne : v ≠ "") :
    semantic_analysis (c6Prog v l1 l2 l3) =
      [(some l3, "Undeclared variable '" ++ v ++ "'")] := by
  simp only [List.mem_cons, List.not_mem_nil, or_false, not_or] at hv
  obtain ⟨h1, h2, h3, h4⟩ := hv
  simp [semantic_analysis, semanticRun, semFuel, nodeWeight, nodeListWeight, c6Prog,
        analyzeNode, analyzeSeq, analyzeBlock, ifKids, elifKids, whileKids, tryKids,
        forScan, fnBody, pyStr, pyTruthy, SymbolTable.declare, SymbolTable.lookup,
        SymbolTable.push_scope, SymbolTable.pop_scope, dictSet, dictGet, condCheck,
        Node.ntype, Node.value, Node.children, Node.withChildren,
        DATA_TYPE_INT, DATA_TYPE_DOUBLE, DATA_TYPE_STRING, DATA_TYPE_BOOL,
        h1, h2, h3, h4, hne]

/-- The C6 theorem at the concrete program `spot(true): x = 1; attack(x)`. -/
theorem c6_scope_isolation_wit :
    ("x" ∉ (["potion", "elixir", "scroll", "fate"] : List String)) ∧ ("x" : String) ≠ "" ∧
    semantic_analysis (c6Prog "x" 1 2 3) =
      [(some 3, "Undeclared variable '" ++ "x" ++ "'")] :=
  ⟨by decide, by decide, c6_scope_isolation "x" 1 2 3 (by decide) (by decide)⟩

/-- C7: the scanner is a total function (modelled by total Lean
definitions over arbitrary input strings), and for every input its
output is a list of non-EOF tokens followed by one DEDENT per
indentation level still open at end of input and exactly one final EOF
token. -/
theorem c7_scanner_trailing_dedents_eof (src : String) :
    ∃ body : List Token,
      (∀ t ∈ body, t.ttype ≠ TOKEN_EOF) ∧
      scan_source src
        = body
          ++ List.replicate (openLevels src)
              (make_token TOKEN_DEDENT (.vstr "") (scanEndLine src) 0)
          ++ [make_token TOKEN_EOF (.vstr "") (scanEndLine src) 0] := by
  refine ⟨(scanMain src).1.tokens, ?_, ?_⟩
  · intro t ht
    exact runLines_noEOF (preprocessLines (splitlines src.data)) 0 ⟨[], [0], none⟩
      (by intro tk h; cases h) t ht
  · simp only [scan_source, openLevels, scanEndLine, unwindDedents_eq, List.append_assoc]

/-- C8: the scope stack never becomes empty: starting from the single
global scope, any sequence of push/pop/declare operations leaves at
least one scope, and `pop_scope` on a one-element stack is the
identity. -/
theorem c8_scope_stack_nonempty :
    (∀ ops : List SymOp, 1 ≤ (applySymOps ops).length) ∧
    (∀ scopes : List Scope, scopes.length = 1 → SymbolTable.pop_scope scopes = scopes) := by
  constructor
  · have step : ∀ (sc : List Scope) (op : SymOp), 1 ≤ sc.length → 1 ≤ (applySymOp sc op).length := by
      intro sc op h
      cases op with
      | push => simp [applySymOp, SymbolTable.push_scope]
      | pop =>
        simp only [applySymOp, SymbolTable.pop_scope]
        split_ifs with hl
        · cases sc with
          | nil => simp at h
          | cons s rest =>
            simp only [List.length_cons] at hl
            cases rest with
            | nil => simp at hl
            | cons s2 r2 => simp
        · exact h
      | decl n d l =>
        cases sc with
        | nil => simp at h
        | cons s rest => simp [applySymOp, SymbolTable.declare]
    intro ops
    suffices hgen : ∀ sc : List Scope, 1 ≤ sc.length → 1 ≤ (ops.foldl applySymOp sc).length by
      exact hgen _ (by simp)
    induction ops with
    | nil => intro sc h; simpa using h
    | cons op rest ih => intro sc h; exact ih _ (step sc op h)
  · intro scopes h
    simp [SymbolTable.pop_scope, h]

/-- The C8 theorem applied to a concrete operation sequence and stack. -/
theorem c8_scope_stack_nonempty_wit :
    1 ≤ (applySymOps [SymOp.push, SymOp.pop, SymOp.pop]).length ∧
    ([([] : Scope)].length = 1 ∧ SymbolTable.pop_scope [([] : Scope)] = [([] : Scope)]) :=
  ⟨c8_scope_stack_nonempty.1 [SymOp.push, SymOp.pop, SymOp.pop],
   ⟨rfl, c8_scope_stack_nonempty.2 [([] : Scope)] rfl⟩⟩

/-- C9: the semantic pass only annotates: erasing every dtype field
from the analyzed tree gives back the input tree with its dtypes
erased, so kind tags, values, line numbers and the whole tree
structure are unchanged and no node is added or removed. -/
theorem c9_annotation_only (root : Node) :
    stripDtype (semantic_annotated root) = stripDtype root :=
  (stripPack (semFuel root)).1 root ⟨[([] : Scope)], [], []⟩

/-- C10: `parse` on the empty token sequence returns an empty Program
root and no diagnostics; reading past the end of the stream yields the
synthesized EOF token instead of failing. -/
theorem c10_empty_token_stream :
    parse ([] : List Token) = (Node.mk "Program" .vnone [] (some 1) none, []) ∧
    ParserState.current (initPState []) = make_token TOKEN_EOF (.vstr "EOF") (-1) (-1) :=
  ⟨rfl, rfl⟩
